import Mathlib

/-!
Verification development for the devai governance layer: the pipeline
orchestrator (devai/pipeline.py), the approval gate (devai/approval.py),
the CI/CD deployment stages (devai/pipeline.py, devai/agents/cicd_agent.py)
and the Jenkins build wait loop (devai/integrations/jenkins.py).

The Python code is embedded shallowly: pure data and control flow are
translated into executable Lean functions.  External collaborators
(design/dev/test/cyber agents, the deploy executor, the Jenkins server) and
the interactive approval channel are modelled as explicit inputs: each
collaborator call consumes a scripted outcome, each interactive prompt
consumes a scripted decision.  Wall-clock timestamps are abstract ticks.
-/

namespace DevAI

/-- Status of an approval request (approval.py, class ApprovalStatus). -/
inductive ApprovalStatus where
  | PENDING
  | APPROVED
  | REJECTED
  | TIMED_OUT
deriving DecidableEq, Repr

/-- A request for human approval (approval.py, dataclass ApprovalRequest).
The details payload is modelled as a list of key/value pairs and timestamps
as abstract clock ticks. -/
structure ApprovalRequest where
  request_id : String
  agent : String
  action : String
  description : String
  details : List (String × String)
  timestamp : Nat
  status : ApprovalStatus := .PENDING
  approver : Option String := none
  approval_timestamp : Option Nat := none
  comments : Option String := none
deriving DecidableEq, Repr

/-- The approval store (approvals.json): a JSON object keyed by request id,
modelled as an association list in insertion order. -/
abbrev Store := List (String × ApprovalRequest)

/-- Dictionary lookup on the approval store. -/
def storeGet (st : Store) (k : String) : Option ApprovalRequest :=
  match st with
  | [] => none
  | (k2, v) :: rest => if k2 = k then some v else storeGet rest k

/-- Dictionary assignment on the approval store: replace in place when the
key is present, append otherwise (Python dict semantics). -/
def storeSet (st : Store) (k : String) (v : ApprovalRequest) : Store :=
  match st with
  | [] => [(k, v)]
  | (k2, v2) :: rest =>
    if k2 = k then (k2, v) :: rest else (k2, v2) :: storeSet rest k v

/-- ApprovalGate._update_status: look the request up, raise ValueError when
the id is unknown, otherwise overwrite status, approver, resolution
timestamp and comments and save the store. -/
def updateStatus (st : Store) (request_id : String) (status : ApprovalStatus)
    (approver : String) (comments : Option String) (now : Nat) :
    Except String (ApprovalRequest × Store) :=
  match storeGet st request_id with
  | none => .error ("Approval request not found: " ++ request_id)
  | some r =>
    let r2 : ApprovalRequest :=
      { r with status := status, approver := some approver,
               approval_timestamp := some now, comments := comments }
    .ok (r2, storeSet st request_id r2)

/-- ApprovalGate.approve. -/
def approve (st : Store) (request_id : String) (approver : String)
    (comments : Option String) (now : Nat) :
    Except String (ApprovalRequest × Store) :=
  updateStatus st request_id .APPROVED approver comments now

/-- ApprovalGate.reject. -/
def reject (st : Store) (request_id : String) (approver : String)
    (comments : Option String) (now : Nat) :
    Except String (ApprovalRequest × Store) :=
  updateStatus st request_id .REJECTED approver comments now

/-- ApprovalGate.request_approval: create a fresh pending request and save
it.  The fresh uuid-based id is supplied by the caller's id supply. -/
def requestApproval (st : Store) (fresh : String) (now : Nat)
    (agent action description : String) (details : List (String × String)) :
    ApprovalRequest × Store :=
  let r : ApprovalRequest :=
    { request_id := fresh, agent := agent, action := action,
      description := description, details := details, timestamp := now }
  (r, storeSet st fresh r)

/-- Substring test, Python's `"pat" in s`. -/
def containsSub (s pat : String) : Bool :=
  (List.range (s.data.length + 1)).any (fun i => pat.data.isPrefixOf (s.data.drop i))

/-- Python str.upper, restricted to the ASCII mapping (character-list form so
that concrete instances reduce inside the kernel). -/
def pyUpper (s : String) : String := ⟨s.data.map Char.toUpper⟩

/-- CyberAgent.parse_decision: classify the scan content as BLOCK / WARN /
APPROVE and extract the blocking issues. -/
def parse_decision (content : String) : String × List String :=
  let c := pyUpper content
  if containsSub c "**BLOCK**" || containsSub c "DECISION: BLOCK" then
    let blockers :=
      (if containsSub c "CRITICAL" then ["Critical severity findings detected"] else []) ++
      (if containsSub c "HIGH" then ["High severity findings detected"] else [])
    ("BLOCK", blockers)
  else if containsSub c "**WARN**" || containsSub c "DECISION: WARN" then
    ("WARN", [])
  else if containsSub c "**APPROVE**" || containsSub c "DECISION: APPROVE" then
    ("APPROVE", [])
  else
    ("WARN", ["Unable to determine security status - manual review required"])

/-- Stages of the pipeline (pipeline.py, class PipelineStage). -/
inductive PipelineStage where
  | DESIGN
  | DESIGN_APPROVAL
  | DEV
  | DEV_APPROVAL
  | TEST
  | TEST_APPROVAL
  | CYBER
  | CYBER_APPROVAL
  | BUILD
  | ARTIFACT_UPLOAD
  | DEPLOY_DEV
  | DEPLOY_STAGING
  | DEPLOY_STAGING_APPROVAL
  | DEPLOY_PROD
  | DEPLOY_PROD_APPROVAL
  | BLOCKED
  | COMPLETE
  | FAILED
deriving DecidableEq, Repr

/-- Result returned by one collaborator agent call (agents/base.py,
dataclass AgentResult; the fields the orchestrator reads). -/
structure AgentResult where
  task_id : String := ""
  content : String := ""
  files_changed : List String := []
  success : Bool := true
  error : Option String := none
deriving DecidableEq, Repr

/-- Outcome of invoking a collaborator: a returned AgentResult or a raised
exception with its message. -/
inductive CollabOutcome where
  | ok (r : AgentResult)
  | raises (msg : String)
deriving DecidableEq, Repr

/-- The collaborator call returned normally with success=True. -/
def collabOk : CollabOutcome → Bool
  | .ok r => r.success
  | .raises _ => false

/-- One scripted answer of the interactive approval channel
(approval.py, prompt_for_approval): approve or reject, with comments. -/
structure Decision where
  approved : Bool
  comments : String := ""
deriving DecidableEq, Repr

/-- Scripted environment of one DevTestCyberPipeline.run call: the outcome
of each collaborator invocation and the decision consumed at each
checkpoint prompt. -/
structure RunEnv where
  design : CollabOutcome
  dev : CollabOutcome
  test : CollabOutcome
  cyber : CollabOutcome
  designDecision : Decision
  devDecision : Decision
  testDecision : Decision
  warnDecision : Decision
deriving DecidableEq, Repr

/-- Caller arguments of DevTestCyberPipeline.run. -/
structure RunArgs where
  task : String := ""
  task_type : String := "feature"
  require_approvals : Bool := true
  skip_design : Bool := false
deriving DecidableEq, Repr

/-- Result from a pipeline execution (pipeline.py, dataclass
PipelineResult).  deployment_results is the per-environment map, as an
association list in insertion order. -/
structure PipelineResult where
  stage : PipelineStage
  design_result : Option AgentResult := none
  dev_result : Option AgentResult := none
  test_result : Option AgentResult := none
  cyber_result : Option AgentResult := none
  security_decision : Option String := none
  security_blockers : List String := []
  approvals : List ApprovalRequest := []
  success : Bool := true
  error : Option String := none
  cicd_result : Option AgentResult := none
  build_number : Option Int := none
  artifact_version : Option String := none
  artifact_sha256 : Option String := none
  deployment_results : List (String × Bool) := []
deriving DecidableEq, Repr

/-- Full state threaded through a run: the mutable PipelineResult, the
approval store, the fresh-id/clock counter, plus the observation records
used by the theorems: the ordered trace of assignments to result.stage,
the actions of the approval requests created, the decisions consumed at
prompts (action name, approved flag), and the approved-design argument
passed to the implementation call. -/
structure RunState where
  result : PipelineResult
  store : Store
  cnt : Nat
  trace : List PipelineStage := []
  created : List String := []
  consumed : List (String × Bool) := []
  approved_design : Option String := none
  devApprovedDesign : Option String := none
deriving DecidableEq, Repr

/-- Assign result.stage and record the transition in the trace. -/
def setStage (s : RunState) (stg : PipelineStage) : RunState :=
  { s with result := { s.result with stage := stg }, trace := s.trace ++ [stg] }

/-- The early-return path: stage=FAILED, success=False, error set. -/
def failRun (s : RunState) (msg : String) : RunState :=
  let s2 := setStage s .FAILED
  { s2 with result := { s2.result with success := false, error := some msg } }

/-- Rendering of Optional[str] inside a Python f-string. -/
def optStr : Option String → String
  | none => "None"
  | some s => s

/-- Decimal digits of a natural number (fuel-based so the kernel reduces). -/
def natDigits : Nat → Nat → List Char
  | 0, _ => []
  | fuel+1, n =>
    if n < 10 then [Char.ofNat (48 + n)]
    else natDigits fuel (n / 10) ++ [Char.ofNat (48 + n % 10)]

/-- Decimal rendering of a natural number. -/
def natToStr (n : Nat) : String := ⟨natDigits (n + 1) n⟩

/-- Fresh request ids drawn from the id supply (approval.py uses uuid4). -/
def freshId (n : Nat) : String := "approval-" ++ natToStr n

/-- The content-truncated summary put into approval details:
content[:n] + "..." when longer than n characters. -/
def truncTo (n : Nat) (s : String) : String :=
  if s.data.length > n then (⟨s.data.take n⟩ : String) ++ "..." else s

/-- Python `xs or ["See output above"]`: an empty files_changed list is
replaced by the placeholder. -/
def filesOrNote (xs : List String) : List String :=
  if xs = [] then ["See output above"] else xs

/-- Join a list for the human-readable details payload (the embedding keeps
details values as strings). -/
def joinList (xs : List String) : String := String.intercalate ", " xs

/-- Result of one pipeline phase: continue to the next phase, return the
run early, or propagate an unhandled internal exception (never reached). -/
inductive PhaseRes where
  | next (s : RunState)
  | finished (s : RunState)
  | crashed (msg : String)
deriving Repr

/-- Result of one approval checkpoint inside a phase. -/
inductive GateRes where
  | ok (s : RunState)
  | rejectedGate (s : RunState) (msg : String)
  | crash (msg : String)
deriving Repr

/-- require_approval (approval.py): create the request, prompt, then
approve (approver "user") and return it, or reject it and raise
PermissionError("Approval rejected: comments"). -/
def runRequireApproval (s : RunState) (agent action description : String)
    (details : List (String × String)) (d : Decision) : GateRes :=
  let rs := requestApproval s.store (freshId s.cnt) s.cnt agent action description details
  let s1 : RunState :=
    { s with store := rs.2, cnt := s.cnt + 1,
             created := s.created ++ [action],
             consumed := s.consumed ++ [(action, d.approved)] }
  if d.approved then
    match approve s1.store rs.1.request_id "user" (some d.comments) s1.cnt with
    | .ok (req2, st2) =>
      .ok { s1 with store := st2,
                    result := { s1.result with approvals := s1.result.approvals ++ [req2] } }
    | .error m => .crash m
  else
    match reject s1.store rs.1.request_id "user" (some d.comments) s1.cnt with
    | .ok (_, st2) => .rejectedGate { s1 with store := st2 } ("Approval rejected: " ++ d.comments)
    | .error m => .crash m

/-- Stages 1-2: Design and Design Approval (run only for a feature with
skip_design false). -/
def designPhase (a : RunArgs) (env : RunEnv) (s : RunState) : PhaseRes :=
  if a.task_type = "feature" && !a.skip_design then
    match env.design with
    | .raises m => .finished (failRun s ("Design phase error: " ++ m))
    | .ok dr =>
      let s := { s with result := { s.result with design_result := some dr } }
      if dr.success then
        let s := setStage s .DESIGN_APPROVAL
        if a.require_approvals then
          match runRequireApproval s "dev" "design_approval"
              ("Design document for: " ++ a.task)
              [("task_id", dr.task_id), ("design_summary", truncTo 500 dr.content)]
              env.designDecision with
          | .ok s2 => .next { s2 with approved_design := some dr.content }
          | .rejectedGate s2 msg => .finished (failRun s2 ("Design rejected: " ++ msg))
          | .crash m => .crashed m
        else
          .next { s with approved_design := some dr.content }
      else
        .finished (failRun s ("Design phase failed: " ++ optStr dr.error))
  else
    .next s

/-- Stages 3-4: Dev Agent and Dev Approval.  The approved-design context is
passed to the implementation call only on the feature branch. -/
def devPhase (a : RunArgs) (env : RunEnv) (s : RunState) : PhaseRes :=
  let s := setStage s .DEV
  let s := { s with devApprovedDesign :=
    if a.task_type = "feature" then s.approved_design else none }
  match env.dev with
  | .raises m => .finished (failRun s ("Dev Agent error: " ++ m))
  | .ok dr =>
    let s := { s with result := { s.result with dev_result := some dr } }
    if dr.success then
      let s := setStage s .DEV_APPROVAL
      if a.require_approvals then
        match runRequireApproval s "dev" "code_changes"
            ("Dev Agent completed: " ++ a.task)
            [("task_id", dr.task_id),
             ("files_changed", joinList (filesOrNote dr.files_changed)),
             ("summary", truncTo 300 dr.content)]
            env.devDecision with
        | .ok s2 => .next s2
        | .rejectedGate s2 msg => .finished (failRun s2 ("Dev approval rejected: " ++ msg))
        | .crash m => .crashed m
      else
        .next s
    else
      .finished (failRun s ("Dev Agent failed: " ++ optStr dr.error))

/-- Stages 5-6: Test Agent and Test Approval. -/
def testPhase (a : RunArgs) (env : RunEnv) (s : RunState) : PhaseRes :=
  let s := setStage s .TEST
  match env.test with
  | .raises m => .finished (failRun s ("Test Agent error: " ++ m))
  | .ok tr =>
    let s := { s with result := { s.result with test_result := some tr } }
    if tr.success then
      let s := setStage s .TEST_APPROVAL
      if a.require_approvals then
        match runRequireApproval s "test" "test_generation"
            ("Test Agent completed tests for: " ++ a.task)
            [("task_id", tr.task_id),
             ("files_changed", joinList (filesOrNote tr.files_changed)),
             ("summary", truncTo 300 tr.content)]
            env.testDecision with
        | .ok s2 => .next s2
        | .rejectedGate s2 msg => .finished (failRun s2 ("Test approval rejected: " ++ msg))
        | .crash m => .crashed m
      else
        .next s
    else
      .finished (failRun s ("Test Agent failed: " ++ optStr tr.error))

/-- Stages 7-8: Cyber Agent scan and the security gate.  BLOCK transitions
to BLOCKED unconditionally; WARN requires an approval when
require_approvals is set (its rejection also transitions to BLOCKED);
anything else proceeds. -/
def cyberPhase (a : RunArgs) (env : RunEnv) (s : RunState) : PhaseRes :=
  let s := setStage s .CYBER
  match env.cyber with
  | .raises m => .finished (failRun s ("Cyber Agent error: " ++ m))
  | .ok cr =>
    let s := { s with result := { s.result with cyber_result := some cr } }
    if cr.success then
      let pd := parse_decision cr.content
      let s := { s with result :=
        { s.result with security_decision := some pd.1, security_blockers := pd.2 } }
      let s := setStage s .CYBER_APPROVAL
      if pd.1 = "BLOCK" then
        let s := setStage s .BLOCKED
        let msg2 := "Security gate blocked: " ++ String.intercalate ", " pd.2
        let r2 := { s.result with success := false, error := some msg2 }
        .finished { s with result := r2 }
      else if pd.1 = "WARN" then
        if a.require_approvals then
          match runRequireApproval s "cyber" "security_warning"
              ("Cyber Agent found warnings for: " ++ a.task)
              [("task_id", cr.task_id),
               ("decision", "WARN - Medium severity findings"),
               ("summary", truncTo 500 cr.content)]
              env.warnDecision with
          | .ok s2 => .next s2
          | .rejectedGate s2 msg =>
            let s3 := setStage s2 .BLOCKED
            let r3 := { s3.result with success := false, error := some ("Security review rejected: " ++ msg) }
            .finished { s3 with result := r3 }
          | .crash m => .crashed m
        else
          .next s
      else
        .next s
    else
      .finished (failRun s ("Cyber Agent failed: " ++ optStr cr.error))

/-- Sequencing with early return. -/
def bindPhase : PhaseRes → (RunState → PhaseRes) → PhaseRes
  | .next s, f => f s
  | .finished s, _ => .finished s
  | .crashed m, _ => .crashed m

/-- Terminal COMPLETE transition. -/
def completeRun (s : RunState) : RunState :=
  let s := setStage s .COMPLETE
  { s with result := { s.result with success := true } }

/-- Outcome of a whole run: the final state, or the propagation of an
unhandled internal exception (never reached). -/
inductive RunOutcome where
  | finished (s : RunState)
  | crashed (msg : String)
deriving Repr

/-- Fresh run state at the top of DevTestCyberPipeline.run: result created
with stage=DESIGN, over a given approval store and id supply. -/
def initState (st0 : Store) (cnt0 : Nat) : RunState :=
  { result := { stage := .DESIGN }, store := st0, cnt := cnt0 }

/-- DevTestCyberPipeline.run: Design, Dev, Test, Cyber with approval
checkpoints, then the COMPLETE transition. -/
def runPipeline (a : RunArgs) (env : RunEnv) (st0 : Store) (cnt0 : Nat) : RunOutcome :=
  match bindPhase (designPhase a env (initState st0 cnt0)) (fun s =>
        bindPhase (devPhase a env s) (fun s =>
        bindPhase (testPhase a env s) (fun s =>
        cyberPhase a env s))) with
  | .next s => .finished (completeRun s)
  | .finished s => .finished s
  | .crashed m => .crashed m

/-- Deployment environments (agents/cicd_agent.py, class Environment). -/
inductive Environment where
  | DEV
  | STAGING
  | PROD
deriving DecidableEq, Repr

/-- The enum value string of an environment. -/
def Environment.str : Environment → String
  | .DEV => "dev"
  | .STAGING => "staging"
  | .PROD => "prod"

/-- Python str.lower, restricted to the ASCII mapping. -/
def pyLower (s : String) : String := ⟨s.data.map Char.toLower⟩

/-- Environment(env_name.lower()): None models the ValueError raised on an
unknown environment name. -/
def parseEnvName (s : String) : Option Environment :=
  let l := pyLower s
  if l = "dev" then some .DEV
  else if l = "staging" then some .STAGING
  else if l = "prod" then some .PROD
  else none

/-- Python `x or default` on an optional string: None and "" are falsy. -/
def orElseStr (o : Option String) (default : String) : String :=
  match o with
  | none => default
  | some v => if v = "" then default else v

/-- One log_deployment audit entry (agents/utilities/audit.py): the
deployment record with its approver chain. -/
structure DeployRecord where
  environment : String
  artifact_version : String
  approved_by : List String
  status : String
deriving DecidableEq, Repr

/-- The approval-count validation at the top of CICDAgent.deploy: staging
needs one approver, prod needs two and at least two distinct (len(set)). -/
def deployValidationError (environment : Environment) (approved_by : List String) :
    Option String :=
  if environment = .STAGING && approved_by.length < 1 then
    some "Staging deployment requires at least one approval"
  else if environment = .PROD && approved_by.length < 2 then
    some "Production deployment requires dual approval (two different approvers)"
  else if environment = .PROD && approved_by.dedup.length < 2 then
    some "Production deployment requires two DIFFERENT approvers"
  else
    none

/-- CICDAgent.deploy: validate the approver list; on failure return a
failed AgentResult without invoking the deploy executor and without
logging; otherwise invoke the executor and log a deployment record with
the approver chain and the success/failed status.  Returns the result, the
log entries appended, and whether the executor was invoked. -/
def deployCall (environment : Environment) (artifact_version : String)
    (approved_by : List String) (task_id : String) (underlying : CollabOutcome) :
    AgentResult × List DeployRecord × Bool :=
  match deployValidationError environment approved_by with
  | some e =>
    ({ task_id := task_id, content := "", success := false, error := some e }, [], false)
  | none =>
    match underlying with
    | .ok r =>
      (r, [{ environment := environment.str, artifact_version := artifact_version,
             approved_by := approved_by,
             status := if r.success then "success" else "failed" }], true)
    | .raises m =>
      ({ task_id := task_id, content := "", success := false, error := some m },
       [{ environment := environment.str, artifact_version := artifact_version,
          approved_by := approved_by, status := "failed" }], true)

/-- Python `authorized_approvers and second_approver not in authorized_approvers`:
an absent or empty allow-list constrains nothing. -/
def authOkay (authorized : Option (List String)) (u : String) : Bool :=
  match authorized with
  | none => true
  | some l => l = [] || l.contains u

/-- Result of require_dual_approval: both requests resolved, a rejection
raised as PermissionError, the scripted operator input exhausted while the
loop is still re-prompting, or an unhandled internal error (never
reached). -/
inductive DualRes where
  | ok (s : RunState) (r1 r2 : ApprovalRequest)
  | rejectedGate (s : RunState) (msg : String)
  | outOfScript (s : RunState)
  | crash (msg : String)
deriving Repr

/-- The re-prompting loop for the second approval of
require_dual_approval: each attempt creates a fresh secondary request; a
negative decision rejects it and raises; a username equal to the first
approver, or outside a non-empty allow-list, discards the attempt and
re-prompts; otherwise the request is approved under the typed username. -/
def dualSecondLoop (agent action description : String)
    (details2 : List (String × String)) (authorized : Option (List String))
    (firstApprover : Option String) (r1 : ApprovalRequest) (s : RunState) :
    List (Decision × String) → DualRes
  | [] => .outOfScript s
  | (d, uname) :: rest =>
    let rs2 := requestApproval s.store (freshId s.cnt) s.cnt agent (action ++ "_secondary")
      ("[Secondary] " ++ description) details2
    let s1 : RunState :=
      { s with store := rs2.2, cnt := s.cnt + 1,
               created := s.created ++ [action ++ "_secondary"],
               consumed := s.consumed ++ [(action ++ "_secondary", d.approved)] }
    if !d.approved then
      match reject s1.store rs2.1.request_id "user" (some d.comments) s1.cnt with
      | .ok (_, st2) =>
        .rejectedGate { s1 with store := st2 } ("Second approval rejected: " ++ d.comments)
      | .error m => .crash m
    else if some uname = firstApprover then
      dualSecondLoop agent action description details2 authorized firstApprover r1 s1 rest
    else if !authOkay authorized uname then
      dualSecondLoop agent action description details2 authorized firstApprover r1 s1 rest
    else
      match approve s1.store rs2.1.request_id uname (some d.comments) s1.cnt with
      | .ok (req2, st2) => .ok { s1 with store := st2 } r1 req2
      | .error m => .crash m

/-- require_dual_approval (approval.py): a primary request approved under
the fixed identity "user", then the second-approval loop, which must
supply an identity different from the recorded first approver. -/
def runDualApproval (s : RunState) (agent action description : String)
    (details : List (String × String)) (authorized : Option (List String))
    (script : Decision × List (Decision × String)) : DualRes :=
  let rs1 := requestApproval s.store (freshId s.cnt) s.cnt agent action
    ("[Primary] " ++ description) details
  let s1 : RunState :=
    { s with store := rs1.2, cnt := s.cnt + 1,
             created := s.created ++ [action],
             consumed := s.consumed ++ [(action, script.1.approved)] }
  if !script.1.approved then
    match reject s1.store rs1.1.request_id "user" (some script.1.comments) s1.cnt with
    | .ok (_, st2) =>
      .rejectedGate { s1 with store := st2 } ("First approval rejected: " ++ script.1.comments)
    | .error m => .crash m
  else
    match approve s1.store rs1.1.request_id "user" (some script.1.comments) s1.cnt with
    | .error m => .crash m
    | .ok (req1, st2) =>
      let s2 := { s1 with store := st2 }
      let details2 := details ++
        [("first_approver", optStr req1.approver), ("requires_different_approver", "True")]
      dualSecondLoop agent action description details2 authorized req1.approver req1 s2
        script.2

/-- Python str.split(sep) on a character list: always a non-empty list of
segments. -/
def splitList (sep : Char) : List Char → List (List Char)
  | [] => [[]]
  | c :: rest =>
    let r := splitList sep rest
    if c = sep then [] :: r
    else
      match r with
      | [] => [[c]]
      | g :: gs => (c :: g) :: gs

/-- Python whitespace test for str.strip. -/
def isSpaceChar (c : Char) : Bool :=
  c = ' ' || c = '\t' || c = '\n' || c = '\r' || c = '\x0b' || c = '\x0c'

/-- Python str.strip. -/
def pyStrip (l : List Char) : List Char :=
  ((l.dropWhile isSpaceChar).reverse.dropWhile isSpaceChar).reverse

/-- ASCII digit test. -/
def isDigitChar (c : Char) : Bool := '0' ≤ c && c ≤ '9'

/-- Digits to a natural number. -/
def digitsToNat (l : List Char) : Option Nat :=
  if l ≠ [] && l.all isDigitChar then
    some (l.foldl (fun a c => a * 10 + (c.toNat - 48)) 0)
  else none

/-- Python int(s) on a stripped string: optional sign then digits;
None models the ValueError branch that is passed over. -/
def parseIntOpt (l : List Char) : Option Int :=
  match l with
  | '-' :: rest => (digitsToNat rest).map (fun n => -(n : Int))
  | '+' :: rest => (digitsToNat rest).map (fun n => (n : Int))
  | _ => (digitsToNat l).map (fun n => (n : Int))

/-- Decimal rendering of an integer. -/
def intToStr (i : Int) : String :=
  match i with
  | .ofNat n => natToStr n
  | .negSucc n => "-" ++ natToStr (n + 1)

/-- The last ":"-separated segment of a line, line.split(":")[-1]. -/
def lastSeg (gs : List (List Char)) : List Char := (gs.getLast?).getD []

/-- The build-number extraction loop of FullCICDPipeline._run_cicd_stages:
every line of the build output containing "Build Number:" whose final
":"-segment parses as an int overwrites the build number. -/
def extractBuildNumber (content : String) (prev : Option Int) : Option Int :=
  (splitList '\n' content.data).foldl
    (fun acc line =>
      if containsSub ⟨line⟩ "Build Number:" then
        match parseIntOpt (pyStrip (lastSeg (splitList ':' line))) with
        | some n => some n
        | none => acc
      else acc) prev

/-- The SHA-256 extraction loop: every line containing "SHA-256:"
overwrites the recorded checksum with its stripped final ":"-segment. -/
def extractSha (content : String) (prev : Option String) : Option String :=
  (splitList '\n' content.data).foldl
    (fun acc line =>
      if containsSub ⟨line⟩ "SHA-256:" then some (⟨pyStrip (lastSeg (splitList ':' line))⟩ : String)
      else acc) prev

/-- Dictionary assignment for the per-environment deployment-results map. -/
def assocSet (m : List (String × Bool)) (k : String) (v : Bool) : List (String × Bool) :=
  match m with
  | [] => [(k, v)]
  | (k2, v2) :: rest =>
    if k2 = k then (k2, v) :: rest else (k2, v2) :: assocSet rest k v

/-- Caller arguments of FullCICDPipeline.run beyond the parent ones. -/
structure CICDArgs where
  deploy_to : List String := []
  require_approvals : Bool := true
  jenkins_job : Option String := none
  artifact_path : Option String := none
deriving DecidableEq, Repr

/-- Scripted environment of the CI/CD stages: build and upload collaborator
outcomes, the deploy-executor outcome for each successive executor
invocation, the interactive decision for each successive staging
checkpoint, the dual-approval script for each successive prod checkpoint,
and int(time.time()) for the fallback version string. -/
structure CICDEnv where
  build : CollabOutcome := .ok {}
  upload : CollabOutcome := .ok {}
  deployOutcome : Nat → CollabOutcome := fun _ => .ok {}
  stagingScript : Nat → Decision := fun _ => { approved := true }
  prodScript : Nat → Decision × List (Decision × String) := fun _ => ({ approved := true }, [])
  nowTime : Nat := 0

/-- State threaded through the CI/CD stages: the run state plus the
deployment log, the count of deploy-executor invocations, and the count of
staging / prod checkpoints reached so far (indices into the scripts). -/
structure CICDState where
  base : RunState
  records : List DeployRecord := []
  deployCalls : Nat := 0
  stagingSeen : Nat := 0
  prodSeen : Nat := 0
deriving Repr

/-- Outcome of the CI/CD stages: the final state, the scripted interactive
input exhausted mid-prompt, or an uncaught exception (the ValueError from
an unknown environment name, or an internal error). -/
inductive CICDRes where
  | finished (s : CICDState)
  | stuck (s : CICDState)
  | crashed (msg : String)
deriving Repr

/-- Stage 9, Build: run only when a jenkins job is named; a failed or
crashed build fails the run; otherwise the build number is parsed from the
build output. -/
def buildStage (ca : CICDArgs) (cenv : CICDEnv) (s : CICDState) : PhaseRes × CICDState :=
  match ca.jenkins_job with
  | none => (.next s.base, s)
  | some _ =>
    let b := setStage s.base .BUILD
    match cenv.build with
    | .raises m => let b2 := failRun b ("Build error: " ++ m); (.finished b2, { s with base := b2 })
    | .ok br =>
      let b := { b with result := { b.result with cicd_result := some br } }
      if br.success then
        let b := { b with result := { b.result with
          build_number := extractBuildNumber br.content b.result.build_number } }
        (.next b, { s with base := b })
      else
        let b2 := failRun b ("Build failed: " ++ optStr br.error)
        (.finished b2, { s with base := b2 })

/-- Stage 10, Artifact upload: run only when an artifact path is given; the
version is derived from the build number (time-based when it is absent or
zero); a failure fails the run; the checksum is parsed from the upload
output. -/
def uploadStage (ca : CICDArgs) (cenv : CICDEnv) (s : CICDState) : PhaseRes × CICDState :=
  match ca.artifact_path with
  | none => (.next s.base, s)
  | some _ =>
    let b := setStage s.base .ARTIFACT_UPLOAD
    let version :=
      match b.result.build_number with
      | some n => if n = 0 then "1.0." ++ natToStr cenv.nowTime else "1.0." ++ intToStr n
      | none => "1.0." ++ natToStr cenv.nowTime
    match cenv.upload with
    | .raises m =>
      let b2 := failRun b ("Artifact upload error: " ++ m); (.finished b2, { s with base := b2 })
    | .ok ur =>
      if ur.success then
        let b := { b with result := { b.result with artifact_version := some version } }
        let b := { b with result := { b.result with
          artifact_sha256 := extractSha ur.content b.result.artifact_sha256 } }
        (.next b, { s with base := b })
      else
        let b2 := failRun b ("Artifact upload failed: " ++ optStr ur.error)
        (.finished b2, { s with base := b2 })

/-- The per-environment deployment loop of _run_cicd_stages, in the
caller-specified order: dev deploys with no approval, staging after a
single approval, prod after the dual approval; every deploy outcome is
recorded in the per-environment results map and never aborts the remaining
environments; only an approval rejection aborts the run. -/
def deployLoop (ca : CICDArgs) (cenv : CICDEnv) (s : CICDState) :
    List String → CICDRes
  | [] =>
    let b := setStage s.base .COMPLETE
    let b := { b with result := { b.result with success := true } }
    .finished { s with base := b }
  | env_name :: rest =>
    match parseEnvName env_name with
    | none => .crashed ("ValueError: " ++ pyLower env_name ++ " is not a valid Environment")
    | some .DEV =>
      let b := setStage s.base .DEPLOY_DEV
      let dc := deployCall .DEV (orElseStr b.result.artifact_version "latest") []
        ("pipeline-deploy-" ++ env_name) (cenv.deployOutcome s.deployCalls)
      let b := { b with result := { b.result with
        deployment_results := assocSet b.result.deployment_results env_name dc.1.success } }
      deployLoop ca cenv
        { s with base := b, records := s.records ++ dc.2.1,
                 deployCalls := s.deployCalls + (if dc.2.2 then 1 else 0) } rest
    | some .STAGING =>
      let b := setStage s.base .DEPLOY_STAGING_APPROVAL
      let approverRes :=
        if ca.require_approvals then
          match runRequireApproval b "cicd" "deployment_staging"
              ("Deploy " ++ optStr b.result.artifact_version ++ " to staging")
              [("artifact_version", optStr b.result.artifact_version),
               ("artifact_sha256", optStr b.result.artifact_sha256),
               ("pipeline_id", "pipeline")]
              (cenv.stagingScript s.stagingSeen) with
          | .ok b2 =>
            match b2.result.approvals.getLast? with
            | some req => Sum.inl (b2, orElseStr req.approver "user")
            | none => Sum.inl (b2, "user")
          | .rejectedGate b2 msg =>
            Sum.inr (PhaseRes.finished (failRun b2 ("Staging deployment rejected: " ++ msg)))
          | .crash m => Sum.inr (PhaseRes.crashed m)
        else
          Sum.inl (b, "auto-approved")
      match approverRes with
      | Sum.inr (PhaseRes.finished b2) => .finished { s with base := b2 }
      | Sum.inr _ => .crashed "internal"
      | Sum.inl (b2, approver) =>
        let b3 := setStage b2 .DEPLOY_STAGING
        let dc := deployCall .STAGING (orElseStr b3.result.artifact_version "latest")
          [approver] "pipeline-deploy-staging" (cenv.deployOutcome s.deployCalls)
        let b4 := { b3 with result := { b3.result with
          deployment_results := assocSet b3.result.deployment_results "staging" dc.1.success } }
        deployLoop ca cenv
          { s with base := b4, records := s.records ++ dc.2.1,
                   deployCalls := s.deployCalls + (if dc.2.2 then 1 else 0),
                   stagingSeen := s.stagingSeen + (if ca.require_approvals then 1 else 0) } rest
    | some .PROD =>
      let b := setStage s.base .DEPLOY_PROD_APPROVAL
      if ca.require_approvals then
        match runDualApproval b "cicd" "deployment_prod"
            ("Deploy " ++ optStr b.result.artifact_version ++ " to PRODUCTION")
            [("artifact_version", optStr b.result.artifact_version),
             ("artifact_sha256", optStr b.result.artifact_sha256),
             ("pipeline_id", "pipeline"), ("environment", "PRODUCTION")]
            none (cenv.prodScript s.prodSeen) with
        | .rejectedGate b2 msg =>
          .finished { s with base := failRun b2 ("Production deployment rejected: " ++ msg) }
        | .outOfScript b2 => .stuck { s with base := b2 }
        | .crash m => .crashed m
        | .ok b2 r1 r2 =>
          let b3 := { b2 with result := { b2.result with
            approvals := b2.result.approvals ++ [r1, r2] } }
          let approvers := [orElseStr r1.approver "user1", orElseStr r2.approver "user2"]
          let b4 := setStage b3 .DEPLOY_PROD
          let dc := deployCall .PROD (orElseStr b4.result.artifact_version "latest")
            approvers "pipeline-deploy-prod" (cenv.deployOutcome s.deployCalls)
          let b5 := { b4 with result := { b4.result with
            deployment_results := assocSet b4.result.deployment_results "prod" dc.1.success } }
          deployLoop ca cenv
            { s with base := b5, records := s.records ++ dc.2.1,
                     deployCalls := s.deployCalls + (if dc.2.2 then 1 else 0),
                     prodSeen := s.prodSeen + 1 } rest
      else
        let approvers := ["auto-approved-1", "auto-approved-2"]
        let b4 := setStage b .DEPLOY_PROD
        let dc := deployCall .PROD (orElseStr b4.result.artifact_version "latest")
          approvers "pipeline-deploy-prod" (cenv.deployOutcome s.deployCalls)
        let b5 := { b4 with result := { b4.result with
          deployment_results := assocSet b4.result.deployment_results "prod" dc.1.success } }
        deployLoop ca cenv
          { s with base := b5, records := s.records ++ dc.2.1,
                   deployCalls := s.deployCalls + (if dc.2.2 then 1 else 0) } rest

/-- FullCICDPipeline._run_cicd_stages: optional Build and Artifact Upload,
then the per-environment deployment loop and the COMPLETE transition. -/
def runCICDStages (ca : CICDArgs) (cenv : CICDEnv) (s : CICDState) : CICDRes :=
  match buildStage ca cenv s with
  | (.finished b, s1) => .finished { s1 with base := b }
  | (.crashed m, _) => .crashed m
  | (.next _, s1) =>
    match uploadStage ca cenv s1 with
    | (.finished b, s2) => .finished { s2 with base := b }
    | (.crashed m, _) => .crashed m
    | (.next _, s2) => deployLoop ca cenv s2 ca.deploy_to

/-- FullCICDPipeline.run: the parent Design/Dev/Test/Cyber pipeline, then
the CI/CD stages when the parent succeeded and environments were
requested. -/
def runFullPipeline (a : RunArgs) (env : RunEnv) (ca : CICDArgs) (cenv : CICDEnv)
    (st0 : Store) (cnt0 : Nat) : CICDRes :=
  match runPipeline a env st0 cnt0 with
  | .crashed m => .crashed m
  | .finished s =>
    if s.result.success && !ca.deploy_to.isEmpty then
      runCICDStages ca cenv { base := s }
    else
      .finished { base := s }

/-- Jenkins build status (integrations/jenkins.py, class BuildStatus). -/
inductive BuildStatus where
  | SUCCESS
  | FAILURE
  | UNSTABLE
  | ABORTED
  | PENDING
  | RUNNING
deriving DecidableEq, Repr

/-- The enum value string of a build status. -/
def BuildStatus.str : BuildStatus → String
  | .SUCCESS => "SUCCESS"
  | .FAILURE => "FAILURE"
  | .UNSTABLE => "UNSTABLE"
  | .ABORTED => "ABORTED"
  | .PENDING => "PENDING"
  | .RUNNING => "RUNNING"

/-- The build has left the RUNNING/PENDING states, so wait_for_build
returns it. -/
def buildFinal (s : BuildStatus) : Bool := !(s = .RUNNING || s = .PENDING)

/-- The timeout and poll-interval configuration consumed by the wait loop
(integrations/jenkins.py, dataclass JenkinsConfig). -/
structure JenkinsConfig where
  timeout_seconds : Nat := 600
  poll_interval_seconds : Nat := 10
deriving DecidableEq, Repr

/-- Python `timeout = timeout or config.timeout_seconds` (0 is falsy). -/
def effTimeout (cfg : JenkinsConfig) (timeout : Option Nat) : Nat :=
  match timeout with
  | none => cfg.timeout_seconds
  | some n => if n = 0 then cfg.timeout_seconds else n

/-- Outcome of the wait loop: the final build status observed at poll i, or
the TimeoutError raised at poll i. -/
inductive WaitRes where
  | completed (status : BuildStatus) (i : Nat)
  | timedOut (i : Nat)
deriving DecidableEq, Repr

/-- One iteration structure of JenkinsClient.wait_for_build: poll the build
info, return it when no longer running or pending, raise TimeoutError when
the elapsed time exceeds the timeout, otherwise sleep one poll interval
and loop.  info i is the status observed at the i-th poll and elapsed i
the wall-clock seconds elapsed when the i-th timeout check runs; the fuel
only bounds the number of modelled iterations. -/
def waitAux (info : Nat → BuildStatus) (elapsed : Nat → Nat) (timeout : Nat) :
    Nat → Nat → Option WaitRes
  | 0, _ => none
  | fuel + 1, i =>
    if buildFinal (info i) then some (.completed (info i) i)
    else if elapsed i > timeout then some (.timedOut i)
    else waitAux info elapsed timeout fuel (i + 1)

/-- Iterations after which the elapsed time must have passed the timeout:
one sleep per iteration of poll seconds each. -/
def waitFuel (timeout poll : Nat) : Nat := timeout / poll + 2

/-- JenkinsClient.wait_for_build over the scripted poll responses. -/
def wait_for_build (info : Nat → BuildStatus) (elapsed : Nat → Nat)
    (cfg : JenkinsConfig) (timeout : Option Nat) : Option WaitRes :=
  let t := effTimeout cfg timeout
  waitAux info elapsed t (waitFuel t cfg.poll_interval_seconds) 0

/-- How CICDAgent.trigger_build surfaces the wait outcome: a completed
build yields success exactly for SUCCESS and the error "Build STATUS"
otherwise; a raised TimeoutError is caught and yields the error
"Build did not complete within T seconds". -/
def surfaceBuild (timeout : Nat) : WaitRes → AgentResult
  | .completed st _ =>
    { content := "", success := st.str = "SUCCESS",
      error := if st.str = "SUCCESS" then none else some ("Build " ++ st.str) }
  | .timedOut _ =>
    { content := "", success := false,
      error := some ("Build did not complete within " ++ natToStr timeout ++ " seconds") }

/-! ## Store lemmas -/

theorem storeGet_storeSet_self (st : Store) (k : String) (v : ApprovalRequest) :
    storeGet (storeSet st k v) k = some v := by
  induction st with
  | nil => simp [storeSet, storeGet]
  | cons hd tl ih =>
    obtain ⟨k2, v2⟩ := hd
    by_cases h : k2 = k <;> simp [storeSet, storeGet, h, ih]

theorem storeGet_storeSet_ne (st : Store) (k k2 : String) (v : ApprovalRequest)
    (h : k2 ≠ k) : storeGet (storeSet st k v) k2 = storeGet st k2 := by
  induction st with
  | nil =>
    simp only [storeSet, storeGet]
    rw [if_neg (fun h2 => h h2.symm)]
  | cons hd tl ih =>
    obtain ⟨k3, v3⟩ := hd
    by_cases h3 : k3 = k
    · subst h3
      simp only [storeSet, if_pos rfl, storeGet]
      rw [if_neg (fun h2 => h h2.symm), if_neg (fun h2 => h h2.symm)]
    · simp only [storeSet, if_neg h3, storeGet]
      by_cases h4 : k3 = k2 <;> simp [h4, ih]

/-- The record written by a successful _update_status. -/
def resolvedAs (r : ApprovalRequest) (status : ApprovalStatus) (approver : String)
    (comments : Option String) (now : Nat) : ApprovalRequest :=
  { r with status := status, approver := some approver,
           approval_timestamp := some now, comments := comments }

theorem updateStatus_none (st : Store) (rid : String) (status : ApprovalStatus)
    (ap : String) (cm : Option String) (now : Nat) (h : storeGet st rid = none) :
    updateStatus st rid status ap cm now = .error ("Approval request not found: " ++ rid) := by
  simp [updateStatus, h]

theorem updateStatus_some (st : Store) (rid : String) (status : ApprovalStatus)
    (ap : String) (cm : Option String) (now : Nat) (r : ApprovalRequest)
    (h : storeGet st rid = some r) :
    updateStatus st rid status ap cm now =
      .ok (resolvedAs r status ap cm now, storeSet st rid (resolvedAs r status ap cm now)) := by
  simp [updateStatus, h, resolvedAs]

/-! ## C7 — ApprovalGate.approve -/

/-- C7: Approve with an unknown request id fails with the not-found error;
Approve with a known id resolves that request to APPROVED with the given
approver, comments and resolution timestamp — for any prior status, so an
already-resolved request has its approver and comments overwritten. -/
theorem C7_approve_spec (st : Store) (rid ap : String) (cm : Option String) (now : Nat) :
    (storeGet st rid = none →
      approve st rid ap cm now = .error ("Approval request not found: " ++ rid)) ∧
    (∀ r, storeGet st rid = some r →
      approve st rid ap cm now =
        .ok (resolvedAs r .APPROVED ap cm now, storeSet st rid (resolvedAs r .APPROVED ap cm now)) ∧
      (resolvedAs r .APPROVED ap cm now).status = .APPROVED ∧
      (resolvedAs r .APPROVED ap cm now).approver = some ap ∧
      (resolvedAs r .APPROVED ap cm now).comments = cm ∧
      (resolvedAs r .APPROVED ap cm now).approval_timestamp = some now ∧
      storeGet (storeSet st rid (resolvedAs r .APPROVED ap cm now)) rid =
        some (resolvedAs r .APPROVED ap cm now)) := by
  refine ⟨fun h => ?_, fun r h => ?_⟩
  · exact updateStatus_none st rid .APPROVED ap cm now h
  · exact ⟨updateStatus_some st rid .APPROVED ap cm now r h, rfl, rfl, rfl, rfl,
      storeGet_storeSet_self st rid _⟩

/-- An already-rejected stored request used by the C7 witness. -/
def wReq : ApprovalRequest :=
  { request_id := "approval-7", agent := "cicd", action := "deployment_prod",
    description := "d", details := [], timestamp := 1,
    status := .REJECTED, approver := some "eve", comments := some "veto" }

/-- C7 witness: on a store holding one already-rejected request, approving
an unknown id fails and re-approving the known id overwrites approver and
comments. -/
theorem C7_approve_spec_witness :
    approve [("approval-7", wReq)] "missing" "alice" (some "ok") 5 =
      .error ("Approval request not found: " ++ "missing") ∧
    approve [("approval-7", wReq)] "approval-7" "alice" (some "ok") 5 =
      .ok (resolvedAs wReq .APPROVED "alice" (some "ok") 5,
           storeSet [("approval-7", wReq)] "approval-7"
             (resolvedAs wReq .APPROVED "alice" (some "ok") 5)) := by
  refine ⟨(C7_approve_spec [("approval-7", wReq)] "missing" "alice" (some "ok") 5).1 (by decide),
    ((C7_approve_spec [("approval-7", wReq)] "approval-7" "alice" (some "ok") 5).2
      wReq (by decide)).1⟩

/-! ## C10 — atomicity of Approve / Reject on the store -/

/-- C10: with an unknown request id both Approve and Reject raise before
any write, producing no updated store at all; with a known id the produced
store differs from the original only at that one request id. -/
theorem C10_update_atomic (st : Store) (rid ap : String) (cm : Option String) (now : Nat) :
    (storeGet st rid = none →
      approve st rid ap cm now = .error ("Approval request not found: " ++ rid) ∧
      reject st rid ap cm now = .error ("Approval request not found: " ++ rid)) ∧
    (∀ r, storeGet st rid = some r →
      (approve st rid ap cm now =
        .ok (resolvedAs r .APPROVED ap cm now, storeSet st rid (resolvedAs r .APPROVED ap cm now)) ∧
       ∀ k, k ≠ rid →
         storeGet (storeSet st rid (resolvedAs r .APPROVED ap cm now)) k = storeGet st k) ∧
      (reject st rid ap cm now =
        .ok (resolvedAs r .REJECTED ap cm now, storeSet st rid (resolvedAs r .REJECTED ap cm now)) ∧
       ∀ k, k ≠ rid →
         storeGet (storeSet st rid (resolvedAs r .REJECTED ap cm now)) k = storeGet st k)) := by
  refine ⟨fun h => ⟨updateStatus_none st rid .APPROVED ap cm now h,
                    updateStatus_none st rid .REJECTED ap cm now h⟩,
    fun r h => ⟨⟨updateStatus_some st rid .APPROVED ap cm now r h,
                 fun k hk => storeGet_storeSet_ne st rid k _ hk⟩,
                ⟨updateStatus_some st rid .REJECTED ap cm now r h,
                 fun k hk => storeGet_storeSet_ne st rid k _ hk⟩⟩⟩

/-- C10 witness: concrete two-request store; rejecting one request leaves
the other request's stored record unchanged, and an unknown id errors. -/
theorem C10_update_atomic_witness :
    (approve [("approval-7", wReq)] "missing" "alice" none 5 =
      .error ("Approval request not found: " ++ "missing")) ∧
    storeGet (storeSet [("approval-7", wReq), ("approval-8", wReq)] "approval-7"
        (resolvedAs wReq .REJECTED "bob" none 9)) "approval-8" =
      storeGet [("approval-7", wReq), ("approval-8", wReq)] "approval-8" := by
  refine ⟨((C10_update_atomic [("approval-7", wReq)] "missing" "alice" none 5).1 (by decide)).1,
    ?_⟩
  exact ((((C10_update_atomic [("approval-7", wReq), ("approval-8", wReq)]
    "approval-7" "bob" none 9).2 wReq (by decide)).2).2 "approval-8" (by decide))

/-! ## Gate-call lemmas -/

theorem runRequireApproval_rejected (s : RunState) (ag act desc : String)
    (det : List (String × String)) (d : Decision) (h : d.approved = false) :
    ∃ s2, runRequireApproval s ag act desc det d =
        .rejectedGate s2 ("Approval rejected: " ++ d.comments) ∧
      s2.result = s.result ∧ s2.trace = s.trace ∧
      s2.created = s.created ++ [act] ∧
      s2.consumed = s.consumed ++ [(act, false)] ∧
      s2.approved_design = s.approved_design ∧
      s2.devApprovedDesign = s.devApprovedDesign := by
  refine ⟨{ s with
      store := storeSet
        (storeSet s.store (freshId s.cnt)
          { request_id := freshId s.cnt, agent := ag, action := act, description := desc,
            details := det, timestamp := s.cnt })
        (freshId s.cnt)
        { request_id := freshId s.cnt, agent := ag, action := act, description := desc,
          details := det, timestamp := s.cnt, status := .REJECTED, approver := some "user",
          approval_timestamp := some (s.cnt + 1), comments := some d.comments },
      cnt := s.cnt + 1, created := s.created ++ [act],
      consumed := s.consumed ++ [(act, false)] }, ?_, rfl, rfl, rfl, rfl, rfl, rfl⟩
  simp [runRequireApproval, h, requestApproval, reject, updateStatus,
    storeGet_storeSet_self]

theorem runRequireApproval_approved (s : RunState) (ag act desc : String)
    (det : List (String × String)) (d : Decision) (h : d.approved = true) :
    ∃ s2 req, runRequireApproval s ag act desc det d = .ok s2 ∧
      s2.result = { s.result with approvals := s.result.approvals ++ [req] } ∧
      s2.trace = s.trace ∧
      s2.created = s.created ++ [act] ∧
      s2.consumed = s.consumed ++ [(act, true)] ∧
      s2.approved_design = s.approved_design ∧
      s2.devApprovedDesign = s.devApprovedDesign ∧
      req.action = act ∧ req.agent = ag ∧
      req.status = .APPROVED ∧ req.approver = some "user" := by
  refine ⟨{ s with
      store := storeSet
        (storeSet s.store (freshId s.cnt)
          { request_id := freshId s.cnt, agent := ag, action := act, description := desc,
            details := det, timestamp := s.cnt })
        (freshId s.cnt)
        { request_id := freshId s.cnt, agent := ag, action := act, description := desc,
          details := det, timestamp := s.cnt, status := .APPROVED, approver := some "user",
          approval_timestamp := some (s.cnt + 1), comments := some d.comments },
      cnt := s.cnt + 1, created := s.created ++ [act],
      consumed := s.consumed ++ [(act, true)],
      result := { s.result with approvals := s.result.approvals ++
        [{ request_id := freshId s.cnt, agent := ag, action := act, description := desc,
           details := det, timestamp := s.cnt, status := .APPROVED, approver := some "user",
           approval_timestamp := some (s.cnt + 1), comments := some d.comments }] } },
    { request_id := freshId s.cnt, agent := ag, action := act, description := desc,
      details := det, timestamp := s.cnt, status := .APPROVED, approver := some "user",
      approval_timestamp := some (s.cnt + 1), comments := some d.comments },
    ?_, rfl, rfl, rfl, rfl, rfl, rfl, rfl, rfl, rfl, rfl⟩
  simp [runRequireApproval, h, requestApproval, approve, updateStatus,
    storeGet_storeSet_self, resolvedAs]

/-- The state carried by a non-crashed phase result. -/
def phaseState : PhaseRes → Option RunState
  | .next s => some s
  | .finished s => some s
  | .crashed _ => none

/-- Footprint of the design phase: it never crashes, appends only
DESIGN_APPROVAL / FAILED transitions, creates only design_approval
requests, and leaves the later stage results, the security decision and
the implementation-step design argument unchanged. -/
theorem designPhase_footprint (a : RunArgs) (env : RunEnv) (s : RunState) :
    ∃ s2, phaseState (designPhase a env s) = some s2 ∧
      (∃ ts, s2.trace = s.trace ++ ts ∧
        ∀ x ∈ ts, x = PipelineStage.DESIGN_APPROVAL ∨ x = PipelineStage.FAILED) ∧
      (∃ cs, s2.created = s.created ++ cs ∧ ∀ x ∈ cs, x = "design_approval") ∧
      s2.result.dev_result = s.result.dev_result ∧
      s2.result.test_result = s.result.test_result ∧
      s2.result.cyber_result = s.result.cyber_result ∧
      s2.result.security_decision = s.result.security_decision ∧
      s2.devApprovedDesign = s.devApprovedDesign := by
  by_cases hc : (a.task_type = "feature" && !a.skip_design) = true
  · rcases henv : env.design with dr | m
    · by_cases hdr : dr.success = true
      · by_cases hra : a.require_approvals = true
        · by_cases hd : env.designDecision.approved = true
          · obtain ⟨s2, req, heq, hres, htr, hcr, hco, had, hdd, hact, hag, hst, hap⟩ :=
              runRequireApproval_approved _ "dev" "design_approval" _ _ env.designDecision hd
            simp only [designPhase, hc, if_true, henv, hdr, hra]
            rw [heq]
            refine ⟨_, rfl, ⟨[.DESIGN_APPROVAL], ?_, by simp⟩,
              ⟨["design_approval"], ?_, by simp⟩, ?_, ?_, ?_, ?_, ?_⟩ <;>
              simp [htr, hcr, hres, hdd, setStage]
          · obtain ⟨s2, heq, hres, htr, hcr, hco, had, hdd⟩ :=
              runRequireApproval_rejected _ "dev" "design_approval" _ _ env.designDecision
                (by simpa using hd)
            simp only [designPhase, hc, if_true, henv, hdr, hra]
            rw [heq]
            refine ⟨_, rfl, ⟨[.DESIGN_APPROVAL, .FAILED], ?_, by simp⟩,
              ⟨["design_approval"], ?_, by simp⟩, ?_, ?_, ?_, ?_, ?_⟩ <;>
              simp [htr, hcr, hres, hdd, setStage, failRun]
        · simp only [designPhase, hc, if_true, henv, hdr, hra, if_false]
          refine ⟨_, rfl, ⟨[.DESIGN_APPROVAL], ?_, by simp⟩, ⟨[], ?_, by simp⟩,
            ?_, ?_, ?_, ?_, ?_⟩ <;> simp [setStage]
      · simp only [designPhase, hc, if_true, henv]
        rw [if_neg hdr]
        refine ⟨_, rfl, ⟨[.FAILED], ?_, by simp⟩, ⟨[], ?_, by simp⟩,
          ?_, ?_, ?_, ?_, ?_⟩ <;> simp [setStage, failRun]
    · simp only [designPhase, hc, if_true, henv]
      refine ⟨_, rfl, ⟨[.FAILED], ?_, by simp⟩, ⟨[], ?_, by simp⟩,
        ?_, ?_, ?_, ?_, ?_⟩ <;> simp [setStage, failRun]
  · refine ⟨s, ?_, ⟨[], by simp, by simp⟩, ⟨[], by simp, by simp⟩, rfl, rfl, rfl, rfl, rfl⟩
    simp [designPhase, hc, phaseState]

/-- The design phase is skipped entirely for a non-feature change or when
skip_design is set. -/
theorem designPhase_skip (a : RunArgs) (env : RunEnv) (s : RunState)
    (hc : ¬(a.task_type = "feature" && !a.skip_design) = true) :
    designPhase a env s = .next s := by
  simp [designPhase, hc]

/-- Footprint of the dev phase: it never crashes, records the DEV
transition first and then only DEV_APPROVAL / FAILED, creates only
code_changes requests, passes the approved-design context to the
implementation call only on the feature branch, and leaves the other
stage results and the security decision unchanged. -/
theorem devPhase_footprint (a : RunArgs) (env : RunEnv) (s : RunState) :
    ∃ s2, phaseState (devPhase a env s) = some s2 ∧
      (∃ ts, s2.trace = s.trace ++ PipelineStage.DEV :: ts ∧
        ∀ x ∈ ts, x = PipelineStage.DEV_APPROVAL ∨ x = PipelineStage.FAILED) ∧
      (∃ cs, s2.created = s.created ++ cs ∧ ∀ x ∈ cs, x = "code_changes") ∧
      s2.result.design_result = s.result.design_result ∧
      s2.result.test_result = s.result.test_result ∧
      s2.result.cyber_result = s.result.cyber_result ∧
      s2.result.security_decision = s.result.security_decision ∧
      s2.devApprovedDesign =
        (if a.task_type = "feature" then s.approved_design else none) := by
  rcases henv : env.dev with dv | m
  · by_cases hdv : dv.success = true
    · by_cases hra : a.require_approvals = true
      · by_cases hd : env.devDecision.approved = true
        · obtain ⟨s2, req, heq, hres, htr, hcr, hco, had, hdd, hact, hag, hst, hap⟩ :=
            runRequireApproval_approved _ "dev" "code_changes" _ _ env.devDecision hd
          simp only [devPhase, henv, hdv, hra, if_true]
          rw [heq]
          refine ⟨_, rfl, ⟨[.DEV_APPROVAL], ?_, by simp⟩,
            ⟨["code_changes"], ?_, by simp⟩, ?_, ?_, ?_, ?_, ?_⟩ <;>
            simp [htr, hcr, hres, hdd, setStage]
        · obtain ⟨s2, heq, hres, htr, hcr, hco, had, hdd⟩ :=
            runRequireApproval_rejected _ "dev" "code_changes" _ _ env.devDecision
              (by simpa using hd)
          simp only [devPhase, henv, hdv, hra, if_true]
          rw [heq]
          refine ⟨_, rfl, ⟨[.DEV_APPROVAL, .FAILED], ?_, by simp⟩,
            ⟨["code_changes"], ?_, by simp⟩, ?_, ?_, ?_, ?_, ?_⟩ <;>
            simp [htr, hcr, hres, hdd, setStage, failRun]
      · simp only [devPhase, henv, hdv, hra, if_true, if_false]
        refine ⟨_, rfl, ⟨[.DEV_APPROVAL], ?_, by simp⟩, ⟨[], ?_, by simp⟩,
          ?_, ?_, ?_, ?_, ?_⟩ <;> simp [setStage]
    · simp only [devPhase, henv]
      rw [if_neg hdv]
      refine ⟨_, rfl, ⟨[.FAILED], ?_, by simp⟩, ⟨[], ?_, by simp⟩,
        ?_, ?_, ?_, ?_, ?_⟩ <;> simp [setStage, failRun]
  · simp only [devPhase, henv]
    refine ⟨_, rfl, ⟨[.FAILED], ?_, by simp⟩, ⟨[], ?_, by simp⟩,
      ?_, ?_, ?_, ?_, ?_⟩ <;> simp [setStage, failRun]

/-- Footprint of the test phase: it never crashes, records the TEST
transition first and then only TEST_APPROVAL / FAILED, creates only
test_generation requests, and leaves the other stage results, the
security decision and the design argument unchanged. -/
theorem testPhase_footprint (a : RunArgs) (env : RunEnv) (s : RunState) :
    ∃ s2, phaseState (testPhase a env s) = some s2 ∧
      (∃ ts, s2.trace = s.trace ++ PipelineStage.TEST :: ts ∧
        ∀ x ∈ ts, x = PipelineStage.TEST_APPROVAL ∨ x = PipelineStage.FAILED) ∧
      (∃ cs, s2.created = s.created ++ cs ∧ ∀ x ∈ cs, x = "test_generation") ∧
      s2.result.design_result = s.result.design_result ∧
      s2.result.dev_result = s.result.dev_result ∧
      s2.result.cyber_result = s.result.cyber_result ∧
      s2.result.security_decision = s.result.security_decision ∧
      s2.devApprovedDesign = s.devApprovedDesign := by
  rcases henv : env.test with tv | m
  · by_cases htv : tv.success = true
    · by_cases hra : a.require_approvals = true
      · by_cases hd : env.testDecision.approved = true
        · obtain ⟨s2, req, heq, hres, htr, hcr, hco, had, hdd, hact, hag, hst, hap⟩ :=
            runRequireApproval_approved _ "test" "test_generation" _ _ env.testDecision hd
          simp only [testPhase, henv, htv, hra, if_true]
          rw [heq]
          refine ⟨_, rfl, ⟨[.TEST_APPROVAL], ?_, by simp⟩,
            ⟨["test_generation"], ?_, by simp⟩, ?_, ?_, ?_, ?_, ?_⟩ <;>
            simp [htr, hcr, hres, hdd, setStage]
        · obtain ⟨s2, heq, hres, htr, hcr, hco, had, hdd⟩ :=
            runRequireApproval_rejected _ "test" "test_generation" _ _ env.testDecision
              (by simpa using hd)
          simp only [testPhase, henv, htv, hra, if_true]
          rw [heq]
          refine ⟨_, rfl, ⟨[.TEST_APPROVAL, .FAILED], ?_, by simp⟩,
            ⟨["test_generation"], ?_, by simp⟩, ?_, ?_, ?_, ?_, ?_⟩ <;>
            simp [htr, hcr, hres, hdd, setStage, failRun]
      · simp only [testPhase, henv, htv, hra, if_true, if_false]
        refine ⟨_, rfl, ⟨[.TEST_APPROVAL], ?_, by simp⟩, ⟨[], ?_, by simp⟩,
          ?_, ?_, ?_, ?_, ?_⟩ <;> simp [setStage]
    · simp only [testPhase, henv]
      rw [if_neg htv]
      refine ⟨_, rfl, ⟨[.FAILED], ?_, by simp⟩, ⟨[], ?_, by simp⟩,
        ?_, ?_, ?_, ?_, ?_⟩ <;> simp [setStage, failRun]
  · simp only [testPhase, henv]
    refine ⟨_, rfl, ⟨[.FAILED], ?_, by simp⟩, ⟨[], ?_, by simp⟩,
      ?_, ?_, ?_, ?_, ?_⟩ <;> simp [setStage, failRun]

/-- Footprint of the cyber phase and security gate: it never crashes,
records the CYBER transition first and then only CYBER_APPROVAL / BLOCKED /
FAILED, creates only security_warning requests, and leaves the other stage
results and the design argument unchanged. -/
theorem cyberPhase_footprint (a : RunArgs) (env : RunEnv) (s : RunState) :
    ∃ s2, phaseState (cyberPhase a env s) = some s2 ∧
      (∃ ts, s2.trace = s.trace ++ PipelineStage.CYBER :: ts ∧
        ∀ x ∈ ts, x = PipelineStage.CYBER_APPROVAL ∨ x = PipelineStage.BLOCKED ∨
          x = PipelineStage.FAILED) ∧
      (∃ cs, s2.created = s.created ++ cs ∧ ∀ x ∈ cs, x = "security_warning") ∧
      s2.result.design_result = s.result.design_result ∧
      s2.result.dev_result = s.result.dev_result ∧
      s2.result.test_result = s.result.test_result ∧
      s2.devApprovedDesign = s.devApprovedDesign := by
  rcases henv : env.cyber with cv | m
  · by_cases hcv : cv.success = true
    · by_cases hb : (parse_decision cv.content).1 = "BLOCK"
      · simp only [cyberPhase, henv, hcv, if_true, hb, if_pos]
        refine ⟨_, rfl, ⟨[.CYBER_APPROVAL, .BLOCKED], ?_, by simp⟩, ⟨[], ?_, by simp⟩,
          ?_, ?_, ?_, ?_⟩ <;> simp [setStage]
      · by_cases hw : (parse_decision cv.content).1 = "WARN"
        · by_cases hra : a.require_approvals = true
          · by_cases hd : env.warnDecision.approved = true
            · obtain ⟨s2, req, heq, hres, htr, hcr, hco, had, hdd, hact, hag, hst, hap⟩ :=
                runRequireApproval_approved _ "cyber" "security_warning" _ _ env.warnDecision hd
              simp only [cyberPhase, henv, hcv, if_true, hb, hw, hra, if_neg, if_pos]
              rw [heq]
              refine ⟨_, rfl, ⟨[.CYBER_APPROVAL], ?_, by simp⟩,
                ⟨["security_warning"], ?_, by simp⟩, ?_, ?_, ?_, ?_⟩ <;>
                simp [htr, hcr, hres, hdd, setStage]
            · obtain ⟨s2, heq, hres, htr, hcr, hco, had, hdd⟩ :=
                runRequireApproval_rejected _ "cyber" "security_warning" _ _ env.warnDecision
                  (by simpa using hd)
              simp only [cyberPhase, henv, hcv, if_true, hb, hw, hra, if_neg, if_pos]
              rw [heq]
              refine ⟨_, rfl, ⟨[.CYBER_APPROVAL, .BLOCKED], ?_, by simp⟩,
                ⟨["security_warning"], ?_, by simp⟩, ?_, ?_, ?_, ?_⟩ <;>
                simp [htr, hcr, hres, hdd, setStage]
          · simp only [cyberPhase, henv, hcv, if_true, hb, hw, hra, if_neg, if_pos, if_false]
            refine ⟨_, rfl, ⟨[.CYBER_APPROVAL], ?_, by simp⟩, ⟨[], ?_, by simp⟩,
              ?_, ?_, ?_, ?_⟩ <;> simp [setStage]
        · simp only [cyberPhase, henv, hcv, if_true, hb, hw, if_neg]
          refine ⟨_, rfl, ⟨[.CYBER_APPROVAL], ?_, by simp⟩, ⟨[], ?_, by simp⟩,
            ?_, ?_, ?_, ?_⟩ <;> simp [setStage]
    · simp only [cyberPhase, henv]
      rw [if_neg hcv]
      refine ⟨_, rfl, ⟨[.FAILED], ?_, by simp⟩, ⟨[], ?_, by simp⟩,
        ?_, ?_, ?_, ?_⟩ <;> simp [setStage, failRun]
  · simp only [cyberPhase, henv]
    refine ⟨_, rfl, ⟨[.FAILED], ?_, by simp⟩, ⟨[], ?_, by simp⟩,
      ?_, ?_, ?_, ?_⟩ <;> simp [setStage, failRun]

/-- The run did not crash and its final state satisfies P. -/
def onFinished (o : RunOutcome) (P : RunState → Prop) : Prop :=
  match o with
  | .finished s => P s
  | .crashed _ => False

/-- The remainder of the pipeline after the design phase. -/
def restOf (a : RunArgs) (env : RunEnv) (s : RunState) : RunOutcome :=
  match bindPhase (devPhase a env s) (fun s2 =>
        bindPhase (testPhase a env s2) (fun s3 => cyberPhase a env s3)) with
  | .next s2 => .finished (completeRun s2)
  | .finished s2 => .finished s2
  | .crashed m => .crashed m

theorem runPipeline_eq (a : RunArgs) (env : RunEnv) (st0 : Store) (cnt0 : Nat) :
    runPipeline a env st0 cnt0 =
      match designPhase a env (initState st0 cnt0) with
      | .next s => restOf a env s
      | .finished s => .finished s
      | .crashed m => .crashed m := by
  rcases h : designPhase a env (initState st0 cnt0) with s | s | m <;>
    simp [runPipeline, restOf, bindPhase, h]

/-- Non-emptiness of the blocking-reasons list under a BLOCK decision:
reasons exist exactly when the uppercased scan content mentions CRITICAL
or HIGH. -/
theorem parse_decision_block_nonempty (c : String)
    (h : (parse_decision c).1 = "BLOCK") :
    ((parse_decision c).2 ≠ [] ↔
      (containsSub (pyUpper c) "CRITICAL" = true ∨
       containsSub (pyUpper c) "HIGH" = true)) := by
  unfold parse_decision at h ⊢
  dsimp only at h ⊢
  by_cases h1 : (containsSub (pyUpper c) "**BLOCK**" ||
      containsSub (pyUpper c) "DECISION: BLOCK") = true
  · rw [if_pos h1]
    by_cases h3 : containsSub (pyUpper c) "CRITICAL" = true <;>
      by_cases h4 : containsSub (pyUpper c) "HIGH" = true <;>
      simp [h3, h4]
  · rw [if_neg h1] at h
    exfalso
    split at h <;> [skip; split at h] <;> simp_all

/-- Behaviour of the security gate with respect to the recorded decision:
from a state with no decision yet, a continuing cyber phase never records
BLOCK, and a finishing cyber phase that records BLOCK is exactly the
security-gate stop: stage BLOCKED, success false, the scan outcome stored,
and the blocking reasons surfaced in the error. -/
theorem cyberPhase_secdec (a : RunArgs) (env : RunEnv) (s : RunState)
    (h0 : s.result.security_decision = none) :
    (∀ s2, cyberPhase a env s = .next s2 →
      s2.result.security_decision ≠ some "BLOCK") ∧
    (∀ s2, cyberPhase a env s = .finished s2 →
      s2.result.security_decision = some "BLOCK" →
      s2.result.stage = .BLOCKED ∧ s2.result.success = false ∧
      ∃ cr, env.cyber = .ok cr ∧ cr.success = true ∧
        s2.result.cyber_result = some cr ∧
        s2.result.security_blockers = (parse_decision cr.content).2 ∧
        (parse_decision cr.content).1 = "BLOCK" ∧
        s2.result.error = some ("Security gate blocked: " ++
          String.intercalate ", " (parse_decision cr.content).2)) := by
  rcases henv : env.cyber with cv | m
  · by_cases hcv : cv.success = true
    · by_cases hb : (parse_decision cv.content).1 = "BLOCK"
      · simp only [cyberPhase, henv, hcv, if_true, hb, if_pos]
        constructor
        · intro s2 h2; cases h2
        · intro s2 h2 _
          cases h2
          refine ⟨by simp [setStage], by simp [setStage], cv, rfl, hcv, ?_, ?_, hb, ?_⟩ <;>
            simp [setStage]
      · by_cases hw : (parse_decision cv.content).1 = "WARN"
        · by_cases hra : a.require_approvals = true
          · by_cases hd : env.warnDecision.approved = true
            · obtain ⟨s2, req, heq, hres, htr, hcr, hco, had, hdd, hact, hag, hst, hap⟩ :=
                runRequireApproval_approved _ "cyber" "security_warning" _ _ env.warnDecision hd
              simp only [cyberPhase, henv, hcv, if_true, hb, hw, hra, if_neg, if_pos]
              rw [heq]
              constructor
              · intro s2b h2
                cases h2
                simp [hres, setStage, hw]
              · intro s2b h2; cases h2
            · obtain ⟨s2, heq, hres, htr, hcr, hco, had, hdd⟩ :=
                runRequireApproval_rejected _ "cyber" "security_warning" _ _ env.warnDecision
                  (by simpa using hd)
              simp only [cyberPhase, henv, hcv, if_true, hb, hw, hra, if_neg, if_pos]
              rw [heq]
              constructor
              · intro s2b h2; cases h2
              · intro s2b h2 hblock
                cases h2
                simp [hres, setStage, hw] at hblock
          · simp only [cyberPhase, henv, hcv, if_true, hb, hw, hra, if_neg, if_pos, if_false]
            constructor
            · intro s2 h2
              cases h2
              simp [setStage, hw]
            · intro s2 h2; cases h2
        · simp only [cyberPhase, henv, hcv, if_true, hb, hw, if_neg]
          constructor
          · intro s2 h2
            cases h2
            simp [setStage, hb]
          · intro s2 h2; cases h2
    · simp only [cyberPhase, henv]
      rw [if_neg hcv]
      constructor
      · intro s2 h2; cases h2
      · intro s2 h2 hblock
        cases h2
        simp [failRun, setStage, h0] at hblock
  · simp only [cyberPhase, henv]
    constructor
    · intro s2 h2; cases h2
    · intro s2 h2 hblock
      cases h2
      simp [failRun, setStage, h0] at hblock

/-! ## C2 — a BLOCK decision always yields BLOCKED -/

/-- C2 (amended): whenever a run records security decision BLOCK, its
terminal stage is BLOCKED and success is false, for every value of
require_approvals and of the approval decisions (no checkpoint is
consulted on this path); the blocking reasons come from the scan content
and are surfaced in the error; the blocking-reasons list is non-empty
exactly when the uppercased scan content mentions CRITICAL or HIGH (it can
be empty, e.g. for the content "Decision: BLOCK"). -/
theorem C2_security_block (a : RunArgs) (env : RunEnv) (st0 : Store) (cnt0 : Nat) :
    onFinished (runPipeline a env st0 cnt0) (fun s =>
      s.result.security_decision = some "BLOCK" →
      s.result.stage = .BLOCKED ∧ s.result.success = false ∧
      ∃ cr, env.cyber = .ok cr ∧ s.result.cyber_result = some cr ∧
        s.result.security_blockers = (parse_decision cr.content).2 ∧
        s.result.error = some ("Security gate blocked: " ++
          String.intercalate ", " (parse_decision cr.content).2) ∧
        (s.result.security_blockers ≠ [] ↔
          (containsSub (pyUpper cr.content) "CRITICAL" = true ∨
           containsSub (pyUpper cr.content) "HIGH" = true))) := by
  rw [runPipeline_eq]
  have hinit : (initState st0 cnt0).result.security_decision = none := rfl
  obtain ⟨sd, hpsd, _, _, _, _, _, hsecd, _⟩ :=
    designPhase_footprint a env (initState st0 cnt0)
  rcases hd : designPhase a env (initState st0 cnt0) with s1 | s1 | m
  rotate_left
  · -- design phase returned early: no security decision recorded
    rw [hd] at hpsd
    simp only [phaseState, Option.some.injEq] at hpsd
    subst hpsd
    simp only [onFinished]
    intro hblock
    rw [hsecd, hinit] at hblock
    cases hblock
  · rw [hd] at hpsd; simp [phaseState] at hpsd
  -- design continued
  rw [hd] at hpsd
  simp only [phaseState, Option.some.injEq] at hpsd
  subst hpsd
  have hsec1 : s1.result.security_decision = none := by rw [hsecd, hinit]
  obtain ⟨sv, hpsv, _, _, _, _, _, hsecv, _⟩ := devPhase_footprint a env s1
  rcases hdev : devPhase a env s1 with s2 | s2 | m
  rotate_left
  · rw [hdev] at hpsv
    simp only [phaseState, Option.some.injEq] at hpsv
    subst hpsv
    simp only [restOf, bindPhase, hdev, onFinished]
    intro hblock
    rw [hsecv, hsec1] at hblock
    cases hblock
  · rw [hdev] at hpsv; simp [phaseState] at hpsv
  rw [hdev] at hpsv
  simp only [phaseState, Option.some.injEq] at hpsv
  subst hpsv
  have hsec2 : s2.result.security_decision = none := by rw [hsecv, hsec1]
  obtain ⟨sw, hpsw, _, _, _, _, _, hsecw, _⟩ := testPhase_footprint a env s2
  rcases htst : testPhase a env s2 with s3 | s3 | m
  rotate_left
  · rw [htst] at hpsw
    simp only [phaseState, Option.some.injEq] at hpsw
    subst hpsw
    simp only [restOf, bindPhase, hdev, htst, onFinished]
    intro hblock
    rw [hsecw, hsec2] at hblock
    cases hblock
  · rw [htst] at hpsw; simp [phaseState] at hpsw
  rw [htst] at hpsw
  simp only [phaseState, Option.some.injEq] at hpsw
  subst hpsw
  have hsec3 : s3.result.security_decision = none := by rw [hsecw, hsec2]
  obtain ⟨scy, hpscy, _, _, _, _, _⟩ := cyberPhase_footprint a env s3
  rcases hcy : cyberPhase a env s3 with s4 | s4 | m
  · -- security gate passed: the recorded decision is never BLOCK
    simp only [restOf, bindPhase, hdev, htst, hcy, onFinished]
    intro hblock
    have hpres : (completeRun s4).result.security_decision =
        s4.result.security_decision := by
      simp [completeRun, setStage]
    rw [hpres] at hblock
    exact absurd hblock ((cyberPhase_secdec a env s3 hsec3).1 s4 hcy)
  · -- security gate stopped the run
    simp only [restOf, bindPhase, hdev, htst, hcy, onFinished]
    intro hblock
    obtain ⟨hstage, hsucc, cr, hcr, hcrs, hcyres, hblockers, hbl, herr⟩ :=
      (cyberPhase_secdec a env s3 hsec3).2 s4 hcy hblock
    refine ⟨hstage, hsucc, cr, hcr, hcyres, hblockers, herr, ?_⟩
    rw [hblockers]
    exact parse_decision_block_nonempty cr.content hbl
  · rw [hcy] at hpscy; simp [phaseState] at hpscy

/-- The environment of the C2 counterexample run: all collaborators
succeed and the scan content is "Decision: BLOCK" with no severity word. -/
def blockEnv : RunEnv :=
  { design := .ok { content := "d" }, dev := .ok { content := "i" },
    test := .ok { content := "t" }, cyber := .ok { content := "Decision: BLOCK" },
    designDecision := { approved := true }, devDecision := { approved := true },
    testDecision := { approved := true }, warnDecision := { approved := true } }

/-- C2 counterexample to the claim as stated: this concrete run records
security decision BLOCK and terminates BLOCKED, yet its blocking-reasons
list is empty, refuting the claimed non-emptiness. -/
theorem C2_security_block_counterexample :
    onFinished (runPipeline { task := "t", task_type := "bugfix", require_approvals := false, skip_design := false } blockEnv [] 0) (fun s =>
      s.result.security_decision = some "BLOCK" ∧
      s.result.stage = .BLOCKED ∧
      s.result.security_blockers = []) :=
  ⟨rfl, rfl, rfl⟩

/-! ## C3 — happy-path feature run without approvals -/

/-- C3: a feature run with require_approvals=false whose four collaborators
all return success=true and whose security decision is APPROVE terminates
COMPLETE, records exactly the eight stage transitions DESIGN_APPROVAL, DEV,
DEV_APPROVAL, TEST, TEST_APPROVAL, CYBER, CYBER_APPROVAL, COMPLETE, and
creates no approval request (the approval store is untouched). -/
theorem C3_happy_feature_run (t : String) (env : RunEnv) (st0 : Store) (cnt0 : Nat)
    (dr dv tr cr : AgentResult)
    (hdes : env.design = .ok dr) (hdes2 : dr.success = true)
    (hdev : env.dev = .ok dv) (hdev2 : dv.success = true)
    (htest : env.test = .ok tr) (htest2 : tr.success = true)
    (hcyb : env.cyber = .ok cr) (hcyb2 : cr.success = true)
    (happ : (parse_decision cr.content).1 = "APPROVE") :
    onFinished (runPipeline { task := t, task_type := "feature", require_approvals := false, skip_design := false } env st0 cnt0) (fun s =>
      s.result.stage = .COMPLETE ∧ s.result.success = true ∧
      s.trace = [.DESIGN_APPROVAL, .DEV, .DEV_APPROVAL, .TEST, .TEST_APPROVAL,
        .CYBER, .CYBER_APPROVAL, .COMPLETE] ∧
      s.trace.length = 8 ∧ s.created = [] ∧ s.store = st0) := by
  simp [onFinished, runPipeline, designPhase, devPhase, testPhase, cyberPhase,
    bindPhase, completeRun, setStage, initState, hdes, hdes2, hdev, hdev2,
    htest, htest2, hcyb, hcyb2, happ]

/-- Concrete all-success environment with an APPROVE scan, used by
witnesses. -/
def happyEnv : RunEnv :=
  { design := .ok { content := "design doc" }, dev := .ok { content := "impl" },
    test := .ok { content := "tests" }, cyber := .ok { content := "Decision: APPROVE" },
    designDecision := { approved := true }, devDecision := { approved := true },
    testDecision := { approved := true }, warnDecision := { approved := true } }

/-- C3 witness: the concrete happy-path feature run without approvals. -/
theorem C3_happy_feature_run_witness :
    onFinished (runPipeline { task := "t", task_type := "feature", require_approvals := false, skip_design := false } happyEnv [] 0) (fun s =>
      s.result.stage = .COMPLETE ∧ s.result.success = true ∧
      s.trace = [.DESIGN_APPROVAL, .DEV, .DEV_APPROVAL, .TEST, .TEST_APPROVAL,
        .CYBER, .CYBER_APPROVAL, .COMPLETE] ∧
      s.trace.length = 8 ∧ s.created = [] ∧ s.store = []) :=
  C3_happy_feature_run "t" happyEnv [] 0 _ _ _ _ rfl rfl rfl rfl rfl rfl rfl rfl rfl

/-! ## C8 — design skipped for non-feature changes -/

/-- C8: whenever the change kind is not "feature" or skip_design is set
(in particular for every bugfix run), the run records no DESIGN or
DESIGN_APPROVAL transition, stores no design stage result, creates no
design approval request, passes no approved-design context to the
implementation call, and its first recorded transition is DEV. -/
theorem C8_design_skipped (a : RunArgs) (env : RunEnv) (st0 : Store) (cnt0 : Nat)
    (h : a.task_type ≠ "feature" ∨ a.skip_design = true) :
    onFinished (runPipeline a env st0 cnt0) (fun s =>
      s.result.design_result = none ∧
      PipelineStage.DESIGN ∉ s.trace ∧
      PipelineStage.DESIGN_APPROVAL ∉ s.trace ∧
      "design_approval" ∉ s.created ∧
      s.devApprovedDesign = none ∧
      s.trace.head? = some PipelineStage.DEV) := by
  have hc : ¬(a.task_type = "feature" && !a.skip_design) = true := by
    rcases h with h | h <;> simp [h]
  rw [runPipeline_eq, designPhase_skip a env (initState st0 cnt0) hc]
  obtain ⟨sv, hpsv, ⟨tsv, htrv, htsv⟩, ⟨csv, hcrv, hcsv⟩, hdesv, _, _, _, hddv⟩ :=
    devPhase_footprint a env (initState st0 cnt0)
  have hinit_tr : (initState st0 cnt0).trace = [] := rfl
  have hinit_cr : (initState st0 cnt0).created = [] := rfl
  have hinit_des : (initState st0 cnt0).result.design_result = none := rfl
  have hinit_ad : (initState st0 cnt0).approved_design = none := rfl
  have hddv2 : sv.devApprovedDesign = none := by
    rw [hddv, hinit_ad]; split <;> rfl
  rw [hinit_tr] at htrv
  rw [hinit_cr] at hcrv
  have hmv : ∀ y ∈ sv.trace, y = PipelineStage.DEV ∨ y = .DEV_APPROVAL ∨ y = .FAILED := by
    intro y hy
    rw [htrv, List.nil_append] at hy
    rcases List.mem_cons.mp hy with rfl | hy
    · exact Or.inl rfl
    · exact Or.inr (htsv y hy)
  have hcv : ∀ y ∈ sv.created, y = "code_changes" := by
    intro y hy
    rw [hcrv, List.nil_append] at hy
    exact hcsv y hy
  have hhd : sv.trace.head? = some PipelineStage.DEV := by
    rw [htrv]; simp
  rcases hdev : devPhase a env (initState st0 cnt0) with s2 | s2 | m
  rotate_left
  · -- dev phase returned early
    rw [hdev] at hpsv
    simp only [phaseState, Option.some.injEq] at hpsv
    subst hpsv
    simp only [restOf, bindPhase, hdev, onFinished]
    refine ⟨by rw [hdesv, hinit_des], ?_, ?_, ?_, hddv2, hhd⟩
    · intro hm; have h2 := hmv _ hm; simp at h2
    · intro hm; have h2 := hmv _ hm; simp at h2
    · intro hm; have h2 := hcv _ hm; simp at h2
  · rw [hdev] at hpsv; simp [phaseState] at hpsv
  rw [hdev] at hpsv
  simp only [phaseState, Option.some.injEq] at hpsv
  subst hpsv
  obtain ⟨sw, hpsw, ⟨tsw, htrw, htsw⟩, ⟨csw, hcrw, hcsw⟩, hdesw, _, _, _, hddw⟩ :=
    testPhase_footprint a env s2
  have hmw : ∀ y ∈ sw.trace, y = PipelineStage.DEV ∨ y = .DEV_APPROVAL ∨
      y = .TEST ∨ y = .TEST_APPROVAL ∨ y = .FAILED := by
    intro y hy
    rw [htrw] at hy
    rcases List.mem_append.mp hy with hy | hy
    · rcases hmv y hy with h2 | h2 | h2 <;> simp [h2]
    · rcases List.mem_cons.mp hy with rfl | hy
      · simp
      · rcases htsw y hy with h2 | h2 <;> simp [h2]
  have hcw : ∀ y ∈ sw.created, y = "code_changes" ∨ y = "test_generation" := by
    intro y hy
    rw [hcrw] at hy
    rcases List.mem_append.mp hy with hy | hy
    · exact Or.inl (hcv y hy)
    · exact Or.inr (hcsw y hy)
  have hhdw : sw.trace.head? = some PipelineStage.DEV := by
    rw [htrw, htrv]; simp
  rcases htst : testPhase a env s2 with s3 | s3 | m
  rotate_left
  · rw [htst] at hpsw
    simp only [phaseState, Option.some.injEq] at hpsw
    subst hpsw
    simp only [restOf, bindPhase, hdev, htst, onFinished]
    refine ⟨by rw [hdesw, hdesv, hinit_des], ?_, ?_, ?_, by rw [hddw, hddv2], hhdw⟩
    · intro hm; have h2 := hmw _ hm; simp at h2
    · intro hm; have h2 := hmw _ hm; simp at h2
    · intro hm; have h2 := hcw _ hm; simp at h2
  · rw [htst] at hpsw; simp [phaseState] at hpsw
  rw [htst] at hpsw
  simp only [phaseState, Option.some.injEq] at hpsw
  subst hpsw
  obtain ⟨sy, hpsy, ⟨tsy, htry, htsy⟩, ⟨csy, hcry, hcsy⟩, hdesy, _, _, hddy⟩ :=
    cyberPhase_footprint a env s3
  have hmy : ∀ y ∈ sy.trace, y = PipelineStage.DEV ∨ y = .DEV_APPROVAL ∨
      y = .TEST ∨ y = .TEST_APPROVAL ∨ y = .CYBER ∨ y = .CYBER_APPROVAL ∨
      y = .BLOCKED ∨ y = .FAILED := by
    intro y hy
    rw [htry] at hy
    rcases List.mem_append.mp hy with hy | hy
    · rcases hmw y hy with h2 | h2 | h2 | h2 | h2 <;> simp [h2]
    · rcases List.mem_cons.mp hy with rfl | hy
      · simp
      · rcases htsy y hy with h2 | h2 | h2 <;> simp [h2]
  have hcy2 : ∀ y ∈ sy.created, y = "code_changes" ∨ y = "test_generation" ∨
      y = "security_warning" := by
    intro y hy
    rw [hcry] at hy
    rcases List.mem_append.mp hy with hy | hy
    · rcases hcw y hy with h2 | h2 <;> simp [h2]
    · exact Or.inr (Or.inr (hcsy y hy))
  have hhdy : sy.trace.head? = some PipelineStage.DEV := by
    rw [htry, htrw, htrv]; simp
  rcases hcy : cyberPhase a env s3 with s4 | s4 | m
  rotate_left
  · rw [hcy] at hpsy
    simp only [phaseState, Option.some.injEq] at hpsy
    subst hpsy
    simp only [restOf, bindPhase, hdev, htst, hcy, onFinished]
    refine ⟨by rw [hdesy, hdesw, hdesv, hinit_des], ?_, ?_, ?_,
      by rw [hddy, hddw, hddv2], hhdy⟩
    · intro hm; have h2 := hmy _ hm; simp at h2
    · intro hm; have h2 := hmy _ hm; simp at h2
    · intro hm; have h2 := hcy2 _ hm; simp at h2
  · rw [hcy] at hpsy; simp [phaseState] at hpsy
  rw [hcy] at hpsy
  simp only [phaseState, Option.some.injEq] at hpsy
  subst hpsy
  simp only [restOf, bindPhase, hdev, htst, hcy, onFinished]
  have hctr : (completeRun s4).trace = s4.trace ++ [PipelineStage.COMPLETE] := by
    simp [completeRun, setStage]
  have hccr : (completeRun s4).created = s4.created := by
    simp [completeRun, setStage]
  have hcdes : (completeRun s4).result.design_result = s4.result.design_result := by
    simp [completeRun, setStage]
  have hcdd : (completeRun s4).devApprovedDesign = s4.devApprovedDesign := by
    simp [completeRun, setStage]
  refine ⟨by rw [hcdes, hdesy, hdesw, hdesv, hinit_des], ?_, ?_, ?_,
    by rw [hcdd, hddy, hddw, hddv2], ?_⟩
  · intro hm
    rw [hctr] at hm
    rcases List.mem_append.mp hm with hm | hm
    · have h2 := hmy _ hm; simp at h2
    · simp at hm
  · intro hm
    rw [hctr] at hm
    rcases List.mem_append.mp hm with hm | hm
    · have h2 := hmy _ hm; simp at h2
    · simp at hm
  · intro hm
    rw [hccr] at hm
    have h2 := hcy2 _ hm; simp at h2
  · rw [hctr, htry, htrw, htrv]; simp

/-- C8 witness: a concrete bugfix run (no approvals) records only the
DEV/TEST/CYBER transitions and completes. -/
theorem C8_design_skipped_witness :
    onFinished (runPipeline { task := "b", task_type := "bugfix", require_approvals := false, skip_design := false } happyEnv [] 0) (fun s =>
      s.result.design_result = none ∧
      PipelineStage.DESIGN ∉ s.trace ∧
      PipelineStage.DESIGN_APPROVAL ∉ s.trace ∧
      "design_approval" ∉ s.created ∧
      s.devApprovedDesign = none ∧
      s.trace.head? = some PipelineStage.DEV) :=
  C8_design_skipped { task := "b", task_type := "bugfix", require_approvals := false, skip_design := false } happyEnv [] 0 (Or.inl (by decide))

/-! ## C6 — distinct dual approvers for prod -/

/-- The second-approval loop accepts some attempt of the script: every
earlier attempt is an approved retry with a same-as-first or unauthorized
identity, and the accepting attempt is approved with a distinct authorized
identity. -/
def scriptAccepts (fa : Option String) (authorized : Option (List String)) :
    List (Decision × String) → Bool
  | [] => false
  | (d, u) :: rest =>
    if !d.approved then false
    else if some u = fa || !authOkay authorized u then scriptAccepts fa authorized rest
    else true

theorem dualSecondLoop_ok (agent action description : String)
    (details2 : List (String × String)) (authorized : Option (List String))
    (fa : Option String) (r1 : ApprovalRequest) :
    ∀ (attempts : List (Decision × String)) (s s2 : RunState)
      (req1 req2 : ApprovalRequest),
      dualSecondLoop agent action description details2 authorized fa r1 s attempts =
        .ok s2 req1 req2 →
      req1 = r1 ∧ ∃ u, req2.approver = some u ∧ some u ≠ fa ∧
        authOkay authorized u = true ∧ req2.status = .APPROVED := by
  intro attempts
  induction attempts with
  | nil => intro s s2 req1 req2 h; simp [dualSecondLoop] at h
  | cons hd tl ih =>
    obtain ⟨d, uname⟩ := hd
    intro s s2 req1 req2 h
    rw [dualSecondLoop] at h
    by_cases hd2 : d.approved = true
    · simp only [hd2, Bool.not_true, Bool.false_eq_true, if_false] at h
      by_cases hu : some uname = fa
      · rw [if_pos hu] at h
        exact ih _ _ _ _ h
      · rw [if_neg hu] at h
        by_cases ha : authOkay authorized uname = true
        · simp only [ha, Bool.not_true, Bool.false_eq_true, if_false,
            requestApproval, approve, updateStatus] at h
          rw [storeGet_storeSet_self] at h
          simp only [DualRes.ok.injEq] at h
          obtain ⟨-, h1, h2⟩ := h
          refine ⟨h1.symm, uname, ?_, hu, ha, ?_⟩ <;> rw [← h2]
        · have ha2 : authOkay authorized uname = false := by
            revert ha; cases authOkay authorized uname <;> simp
          simp only [ha2, Bool.not_false, if_true] at h
          exact ih _ _ _ _ h
    · have hd3 : d.approved = false := by
        revert hd2; cases d.approved <;> simp
      simp only [hd3, Bool.not_false, if_true, requestApproval, reject,
        updateStatus] at h
      rw [storeGet_storeSet_self] at h
      simp at h

theorem runDualApproval_ok (s : RunState) (agent action description : String)
    (details : List (String × String)) (authorized : Option (List String))
    (script : Decision × List (Decision × String)) (s2 : RunState)
    (r1 r2 : ApprovalRequest)
    (h : runDualApproval s agent action description details authorized script =
      .ok s2 r1 r2) :
    r1.approver = some "user" ∧ r1.status = .APPROVED ∧
    ∃ u, r2.approver = some u ∧ u ≠ "user" ∧ authOkay authorized u = true ∧
      r2.status = .APPROVED := by
  rw [runDualApproval] at h
  by_cases h1 : script.1.approved = true
  · simp only [h1, Bool.not_true, Bool.false_eq_true, if_false,
      requestApproval, approve, updateStatus] at h
    rw [storeGet_storeSet_self] at h
    simp only at h
    obtain ⟨hr1, u, hu, hne, hauth, hst⟩ := dualSecondLoop_ok _ _ _ _ _ _ _ _ _ _ _ _ h
    subst hr1
    refine ⟨rfl, rfl, u, hu, ?_, hauth, hst⟩
    intro hcontra
    exact hne (by rw [hcontra])
  · have h2 : script.1.approved = false := by
      revert h1; cases script.1.approved <;> simp
    simp only [h2, Bool.not_false, if_true, requestApproval, reject,
      updateStatus] at h
    rw [storeGet_storeSet_self] at h
    simp at h

/-- C6: (i) CICDAgent.deploy to prod fails without invoking the deploy
executor and without logging any deployment record when the supplied
approver list has fewer than two entries or fewer than two distinct
identities; (ii) every deployment record logged by a prod deploy carries
at least two pairwise-distinct approver identities; (iii) when
require_dual_approval resolves both requests, the recorded approvers are
the fixed primary identity "user" and a second identity different from it,
so the two approvers are never equal. -/
theorem C6_prod_dual_distinct :
    (∀ (av tid : String) (ab : List String) (u : CollabOutcome),
      ab.length < 2 ∨ ab.dedup.length < 2 →
      (deployCall .PROD av ab tid u).1.success = false ∧
      (deployCall .PROD av ab tid u).2.1 = [] ∧
      (deployCall .PROD av ab tid u).2.2 = false) ∧
    (∀ (av tid : String) (ab : List String) (u : CollabOutcome)
      (rec : DeployRecord), rec ∈ (deployCall .PROD av ab tid u).2.1 →
      rec.approved_by = ab ∧ 2 ≤ rec.approved_by.dedup.length) ∧
    (∀ (s : RunState) (agent action description : String)
      (details : List (String × String)) (authorized : Option (List String))
      (script : Decision × List (Decision × String)) (s2 : RunState)
      (r1 r2 : ApprovalRequest),
      runDualApproval s agent action description details authorized script =
        .ok s2 r1 r2 →
      r1.approver = some "user" ∧ r1.approver ≠ r2.approver) := by
  refine ⟨?_, ?_, ?_⟩
  · intro av tid ab u hlt
    rcases hval : deployValidationError .PROD ab with - | e
    · exfalso
      rw [deployValidationError] at hval
      rcases hlt with h | h
      · simp [h] at hval
      · by_cases h2 : ab.length < 2
        · simp [h2] at hval
        · simp [h2, h] at hval
    · simp [deployCall, hval]
  · intro av tid ab u rec hrec
    rcases hval : deployValidationError .PROD ab with - | e
    · have hlen : ¬ab.dedup.length < 2 := by
        by_cases h2 : ab.length < 2
        · exfalso
          rw [deployValidationError] at hval
          simp [h2] at hval
        · intro h3
          rw [deployValidationError] at hval
          simp [h2, h3] at hval
      rcases u with r | m <;>
        simp only [deployCall, hval] at hrec <;>
        simp only [List.mem_singleton] at hrec <;>
        subst hrec <;>
        exact ⟨rfl, Nat.le_of_not_lt hlen⟩
    · simp [deployCall, hval] at hrec
  · intro s agent action description details authorized script s2 r1 r2 h
    obtain ⟨hap, -, u, hu, hne, -, -⟩ :=
      runDualApproval_ok s agent action description details authorized script s2 r1 r2 h
    refine ⟨hap, ?_⟩
    rw [hap, hu]
    intro hcontra
    exact hne (by injection hcontra with h2; exact h2.symm)

/-- C6 witness: a prod deploy supplied with the two-element but
single-identity approver list ["alice", "alice"] fails without invoking
the executor and logs no record. -/
theorem C6_prod_dual_distinct_witness :
    (deployCall .PROD "1.0.1" ["alice", "alice"] "tid" (.ok {})).1.success = false ∧
    (deployCall .PROD "1.0.1" ["alice", "alice"] "tid" (.ok {})).2.1 = [] ∧
    (deployCall .PROD "1.0.1" ["alice", "alice"] "tid" (.ok {})).2.2 = false :=
  C6_prod_dual_distinct.1 "1.0.1" "tid" ["alice", "alice"] (.ok {}) (by decide)

/-! ## C9 — the Jenkins wait loop terminates -/

theorem waitAux_some (info : Nat → BuildStatus) (elapsed : Nat → Nat)
    (timeout poll : Nat) (hpoll : 0 < poll)
    (helapsed : ∀ j, j * poll ≤ elapsed j) :
    ∀ (fuel i : Nat), 1 ≤ fuel → timeout / poll + 2 ≤ i + fuel →
      ∃ r, waitAux info elapsed timeout fuel i = some r := by
  intro fuel
  induction fuel with
  | zero => intro i h1 _; exact absurd h1 (by omega)
  | succ n ih =>
    intro i _ h2
    rw [waitAux]
    by_cases hf : buildFinal (info i) = true
    · exact ⟨_, by rw [if_pos hf]⟩
    · rw [if_neg hf]
      by_cases ht : elapsed i > timeout
      · exact ⟨_, by rw [if_pos ht]⟩
      · rw [if_neg ht]
        have hi : i * poll ≤ timeout := le_trans (helapsed i) (Nat.not_lt.mp ht)
        have hile : i ≤ timeout / poll := (Nat.le_div_iff_mul_le hpoll).mpr hi
        exact ih (i + 1) (by omega) (by omega)

theorem waitAux_spec (info : Nat → BuildStatus) (elapsed : Nat → Nat)
    (timeout : Nat) : ∀ (fuel i : Nat) (r : WaitRes),
    waitAux info elapsed timeout fuel i = some r →
    (∀ st j, r = .completed st j → st = info j ∧ buildFinal st = true) ∧
    (∀ j, r = .timedOut j → timeout < elapsed j ∧ buildFinal (info j) = false) := by
  intro fuel
  induction fuel with
  | zero => intro i r h; simp [waitAux] at h
  | succ n ih =>
    intro i r h
    rw [waitAux] at h
    by_cases hf : buildFinal (info i) = true
    · rw [if_pos hf] at h
      simp only [Option.some.injEq] at h
      subst h
      constructor
      · intro st j hc
        cases hc
        exact ⟨rfl, hf⟩
      · intro j hc; cases hc
    · rw [if_neg hf] at h
      by_cases ht : elapsed i > timeout
      · rw [if_pos ht] at h
        simp only [Option.some.injEq] at h
        subst h
        constructor
        · intro st j hc; cases hc
        · intro j hc
          cases hc
          exact ⟨ht, by revert hf; cases buildFinal (info i) <;> simp⟩
      · rw [if_neg ht] at h
        exact ih (i + 1) r h

/-- The error message of a surfaced timeout differs from every surfaced
outcome of a build that completed: a timed-out wait is an operational
failure, not a build failure. -/
theorem surfaceBuild_timeout_distinct (timeout : Nat) (i j : Nat) (st : BuildStatus) :
    surfaceBuild timeout (.timedOut i) ≠ surfaceBuild timeout (.completed st j) := by
  intro h
  by_cases hs : st.str = "SUCCESS"
  · have hsucc := congrArg AgentResult.success h
    simp [surfaceBuild, hs] at hsucc
  · have herr := congrArg AgentResult.error h
    simp only [surfaceBuild, hs, if_neg, if_false] at herr
    simp only [Option.some.injEq] at herr
    have hlen := congrArg String.length herr
    rw [String.length_append, String.length_append] at hlen
    have h30 : ("Build did not complete within " : String).length = 30 := by decide
    have h8 : (" seconds" : String).length = 8 := by decide
    have hst : ("Build " ++ st.str).length ≤ 14 := by
      cases st <;> simp [BuildStatus.str] <;> decide
    rw [h30, h8] at hlen
    omega

/-- C9: for every caller-configurable timeout and positive poll interval,
the build wait loop terminates: either it returns the final status the
polled build reached, or, once the elapsed time exceeds the effective
timeout while the build is still running or pending, it raises the
TimeoutError, which trigger_build surfaces with an error message distinct
from that of every completed build.  The elapsed-time hypothesis reflects
that each non-returning iteration sleeps one poll interval. -/
theorem C9_wait_terminates (info : Nat → BuildStatus) (elapsed : Nat → Nat)
    (cfg : JenkinsConfig) (timeout : Option Nat)
    (hpoll : 0 < cfg.poll_interval_seconds)
    (helapsed : ∀ j, j * cfg.poll_interval_seconds ≤ elapsed j) :
    ∃ r, wait_for_build info elapsed cfg timeout = some r ∧
      (∀ st j, r = .completed st j → st = info j ∧ buildFinal st = true) ∧
      (∀ j, r = .timedOut j → effTimeout cfg timeout < elapsed j ∧
        buildFinal (info j) = false ∧
        (∀ k st, surfaceBuild (effTimeout cfg timeout) r ≠
          surfaceBuild (effTimeout cfg timeout) (.completed st k))) := by
  obtain ⟨r, hr⟩ := waitAux_some info elapsed (effTimeout cfg timeout)
    cfg.poll_interval_seconds hpoll helapsed
    (waitFuel (effTimeout cfg timeout) cfg.poll_interval_seconds) 0
    (by rw [waitFuel]; exact le_trans (by norm_num) (Nat.le_add_left 2 _))
    (by rw [waitFuel, Nat.zero_add])
  obtain ⟨hcomp, htime⟩ := waitAux_spec info elapsed (effTimeout cfg timeout) _ _ _ hr
  refine ⟨r, hr, hcomp, fun j hj => ?_⟩
  obtain ⟨h1, h2⟩ := htime j hj
  refine ⟨h1, h2, fun k st => ?_⟩
  rw [hj]
  exact surfaceBuild_timeout_distinct _ j k st

/-- C9 witness: a build that never leaves RUNNING under timeout 5 and poll
interval 2 with the minimal elapsed-time schedule is reported as timed
out at the third poll. -/
theorem C9_wait_terminates_witness :
    ∃ r, wait_for_build (fun _ => .RUNNING) (fun i => i * 2)
        { timeout_seconds := 5, poll_interval_seconds := 2 } none = some r ∧
      (∀ st j, r = .completed st j → st = .RUNNING ∧ buildFinal st = true) ∧
      (∀ j, r = .timedOut j → 5 < j * 2 ∧ buildFinal BuildStatus.RUNNING = false ∧
        (∀ k st, surfaceBuild 5 r ≠ surfaceBuild 5 (.completed st k))) := by
  obtain ⟨r, hr, hcomp, htime⟩ := C9_wait_terminates (fun _ => .RUNNING) (fun i => i * 2)
    { timeout_seconds := 5, poll_interval_seconds := 2 } none (by decide)
    (fun j => le_refl _)
  exact ⟨r, hr, hcomp, htime⟩

/-! ## C4 — the dev/staging/prod dual-approval scenario -/

/-- The CI/CD run finished normally and its final state satisfies P. -/
def onCICDDone (o : CICDRes) (P : CICDState → Prop) : Prop :=
  match o with
  | .finished s => P s
  | _ => False

/-- Run state entering the deployment stages in the C4 scenario: the
parent pipeline ended COMPLETE over an empty approval store. -/
def c4base : RunState := { result := { stage := .COMPLETE }, store := [], cnt := 0 }

/-- C4 scenario arguments: deploy to dev, staging, prod with approvals. -/
def c4args : CICDArgs := { deploy_to := ["dev", "staging", "prod"], require_approvals := true }

/-- C4 scenario as the claim states it: staging approval granted, prod
first approval granted, then second approval attempts typed as "alice"
and then "bob", every deploy succeeding. -/
def c4envAlice : CICDEnv :=
  { deployOutcome := fun _ => .ok { success := true },
    stagingScript := fun _ => { approved := true },
    prodScript := fun _ =>
      ({ approved := true }, [({ approved := true }, "alice"), ({ approved := true }, "bob")]) }

/-- The same scenario with the second approval attempts typed as "user"
(the identity the gate recorded for the first approval) and then "bob". -/
def c4envUser : CICDEnv :=
  { deployOutcome := fun _ => .ok { success := true },
    stagingScript := fun _ => { approved := true },
    prodScript := fun _ =>
      ({ approved := true }, [({ approved := true }, "user"), ({ approved := true }, "bob")]) }

/-- C4 counterexample to the claim as stated: in the scenario run the
first prod approval is recorded under the fixed identity "user", so the
second attempt by "alice" is accepted at once — only one secondary prompt
is consumed, no re-prompt happens — and the prod deployment record carries
approvers ["user", "alice"], not ["alice", "bob"]. -/
theorem C4_dual_approval_counterexample :
    onCICDDone (runCICDStages c4args c4envAlice { base := c4base }) (fun s =>
      s.records.map (fun r => (r.environment, r.approved_by)) =
        [("dev", []), ("staging", ["user"]), ("prod", ["user", "alice"])] ∧
      s.base.consumed = [("deployment_staging", true), ("deployment_prod", true),
        ("deployment_prod_secondary", true)] ∧
      s.records.map (fun r => (r.environment, r.approved_by)) ≠
        [("dev", []), ("staging", ["user"]), ("prod", ["alice", "bob"])]) :=
  ⟨rfl, rfl, by decide⟩

/-- C4 (amended): in the scenario run, the first prod approval is recorded
under the fixed identity "user"; a second approval attempt supplying that
same identity "user" is re-prompted rather than accepted (two secondary
prompts are consumed), and after "bob" approves, the prod deployment
record has the two distinct approvers ["user", "bob"], the dev record has
zero approvers and the staging record exactly one. -/
theorem C4_dual_approval_amended :
    onCICDDone (runCICDStages c4args c4envUser { base := c4base }) (fun s =>
      s.records.map (fun r => (r.environment, r.approved_by)) =
        [("dev", []), ("staging", ["user"]), ("prod", ["user", "bob"])] ∧
      s.base.consumed = [("deployment_staging", true), ("deployment_prod", true),
        ("deployment_prod_secondary", true), ("deployment_prod_secondary", true)] ∧
      s.base.result.stage = .COMPLETE ∧
      (s.records.map (fun r => r.approved_by.length)) = [0, 1, 2]) :=
  ⟨rfl, rfl, rfl, rfl⟩

/-! ## C5 — deploy failures do not abort sibling environments -/

/-- Lookup in the per-environment deployment-results map. -/
def assocGet (m : List (String × Bool)) (k : String) : Option Bool :=
  match m with
  | [] => none
  | (k2, v) :: rest => if k2 = k then some v else assocGet rest k

/-- The key under which an environment's deploy outcome is recorded: the
raw caller-given name for dev, the fixed keys for staging and prod. -/
def resultKey (e : String) : String :=
  match parseEnvName e with
  | some .STAGING => "staging"
  | some .PROD => "prod"
  | _ => e

theorem assocGet_assocSet_self (m : List (String × Bool)) (k : String) (v : Bool) :
    assocGet (assocSet m k v) k = some v := by
  induction m with
  | nil => simp [assocSet, assocGet]
  | cons hd tl ih =>
    obtain ⟨k2, v2⟩ := hd
    by_cases h : k2 = k <;> simp [assocSet, assocGet, h, ih]

theorem assocGet_isSome_assocSet (m : List (String × Bool)) (k k2 : String) (v : Bool)
    (h : (assocGet m k2).isSome = true) :
    (assocGet (assocSet m k v) k2).isSome = true := by
  induction m with
  | nil => simp [assocGet] at h
  | cons hd tl ih =>
    obtain ⟨k3, v3⟩ := hd
    by_cases h3 : k3 = k
    · subst h3
      by_cases h4 : k3 = k2
      · simp [assocSet, assocGet, h4]
      · simp only [assocGet, if_neg h4] at h
        simp [assocSet, assocGet, h4, h]
    · by_cases h4 : k3 = k2
      · subst h4
        simp [assocSet, assocGet, h3]
      · simp only [assocGet, if_neg h4] at h
        simp [assocSet, assocGet, h3, h4, ih h]

/-- Every interactive decision consumed by the deployment loop over these
environments is an approval: the staging decisions approve, the prod first
approvals approve, and each prod second-approval script reaches an
accepted attempt.  Indexed by the staging / prod checkpoint counters. -/
def scriptsApprove (ca : CICDArgs) (cenv : CICDEnv) : Nat → Nat → List String → Bool
  | _, _, [] => true
  | si, pj, e :: rest =>
    match parseEnvName e with
    | none => false
    | some .DEV => scriptsApprove ca cenv si pj rest
    | some .STAGING =>
      if ca.require_approvals then
        (cenv.stagingScript si).approved && scriptsApprove ca cenv (si + 1) pj rest
      else scriptsApprove ca cenv si pj rest
    | some .PROD =>
      if ca.require_approvals then
        (cenv.prodScript pj).1.approved &&
          scriptAccepts (some "user") none (cenv.prodScript pj).2 &&
          scriptsApprove ca cenv si (pj + 1) rest
      else scriptsApprove ca cenv si pj rest

theorem deployCall_attempted (environment : Environment) (av tid : String)
    (ab : List String) (u : CollabOutcome)
    (h : deployValidationError environment ab = none) :
    (deployCall environment av ab tid u).2.2 = true ∧
    (deployCall environment av ab tid u).2.1.length = 1 ∧
    ∀ rec ∈ (deployCall environment av ab tid u).2.1, rec.approved_by = ab := by
  rcases u with r | m <;> simp [deployCall, h]

theorem deployValidationError_prod_pair (x : String) (hx : x ≠ "user") :
    deployValidationError .PROD ["user", x] = none := by
  have h2 : (["user", x] : List String).dedup.length = 2 := by
    rw [List.dedup_cons_of_not_mem
      (by simp only [List.mem_singleton]; exact fun h => hx h.symm)]
    simp
  rw [deployValidationError]
  simp [h2]

theorem dualSecondLoop_accepts (agent action description : String)
    (details2 : List (String × String)) (authorized : Option (List String))
    (fa : Option String) (r1 : ApprovalRequest) :
    ∀ (attempts : List (Decision × String)) (s : RunState),
      scriptAccepts fa authorized attempts = true →
      ∃ s2 req2,
        dualSecondLoop agent action description details2 authorized fa r1 s attempts =
          .ok s2 r1 req2 ∧
        s2.result = s.result ∧ s2.trace = s.trace ∧
        ∃ u, req2.approver = some u ∧ some u ≠ fa := by
  intro attempts
  induction attempts with
  | nil => intro s h; simp [scriptAccepts] at h
  | cons hd tl ih =>
    obtain ⟨d, uname⟩ := hd
    intro s h
    rw [scriptAccepts] at h
    rw [dualSecondLoop]
    by_cases hd2 : d.approved = true
    · simp only [hd2, Bool.not_true, Bool.false_eq_true, if_false] at h ⊢
      by_cases hu : some uname = fa
      · simp only [hu, true_or, if_true, eq_self_iff_true] at h
        rw [if_pos hu]
        obtain ⟨s2, req2, heq, hres, htr, hex⟩ := ih _ (by simpa [hu] using h)
        exact ⟨s2, req2, heq, by simpa using hres, by simpa using htr, hex⟩
      · rw [if_neg hu]
        by_cases ha : authOkay authorized uname = true
        · simp only [ha, Bool.not_true, Bool.false_eq_true, if_false,
            requestApproval, approve, updateStatus]
          rw [storeGet_storeSet_self]
          exact ⟨_, _, rfl, rfl, rfl, uname, rfl, hu⟩
        · have ha2 : authOkay authorized uname = false := by
            revert ha; cases authOkay authorized uname <;> simp
          have h2 : scriptAccepts fa authorized tl = true := by
            simpa [hu, ha2] using h
          simp only [ha2, Bool.not_false, if_true]
          obtain ⟨s2, req2, heq, hres, htr, hex⟩ := ih _ h2
          exact ⟨s2, req2, heq, by simpa using hres, by simpa using htr, hex⟩
    · have hd3 : d.approved = false := by
        revert hd2; cases d.approved <;> simp
      rw [hd3] at h
      simp at h

theorem runDualApproval_accepts (s : RunState) (agent action description : String)
    (details : List (String × String)) (authorized : Option (List String))
    (script : Decision × List (Decision × String))
    (h1 : script.1.approved = true)
    (hacc : scriptAccepts (some "user") authorized script.2 = true) :
    ∃ s2 r1 r2,
      runDualApproval s agent action description details authorized script =
        .ok s2 r1 r2 ∧
      s2.result = s.result ∧ s2.trace = s.trace ∧
      r1.approver = some "user" ∧ ∃ u, r2.approver = some u ∧ u ≠ "user" := by
  rw [runDualApproval]
  simp only [h1, Bool.not_true, Bool.false_eq_true, if_false,
    requestApproval, approve, updateStatus]
  rw [storeGet_storeSet_self]
  simp only
  obtain ⟨s2, req2, heq, hres, htr, u, hu, hne⟩ :=
    dualSecondLoop_accepts agent action description _ authorized (some "user") _
      script.2 _ hacc
  rw [heq]
  refine ⟨s2, _, _, rfl, by simpa using hres, by simpa using htr, rfl, u, hu, ?_⟩
  intro hc
  exact hne (by rw [hc])


/-- C5: over any caller-given list of target environments, with every
interactive approval granted, the deployment loop attempts one deploy per
requested environment and logs one deployment record per environment
regardless of each deploy outcome (the deploy-executor outcomes are
universally quantified, so any of them may fail); it terminates with stage
COMPLETE and success true, every requested environment has an entry in the
per-environment results map, and no existing entry is lost. -/
theorem C5_deploy_failure_isolated (ca : CICDArgs) (cenv : CICDEnv) :
    ∀ (envs : List String) (s : CICDState),
      scriptsApprove ca cenv s.stagingSeen s.prodSeen envs = true →
      ∃ s2, deployLoop ca cenv s envs = .finished s2 ∧
        s2.base.result.stage = .COMPLETE ∧ s2.base.result.success = true ∧
        s2.deployCalls = s.deployCalls + envs.length ∧
        s2.records.length = s.records.length + envs.length ∧
        (∀ k, (assocGet s.base.result.deployment_results k).isSome = true →
          (assocGet s2.base.result.deployment_results k).isSome = true) ∧
        (∀ e ∈ envs, (assocGet s2.base.result.deployment_results (resultKey e)).isSome = true) := by
  intro envs
  induction envs with
  | nil =>
    intro s h
    refine ⟨_, rfl, by simp [setStage], by simp [setStage], by simp, by simp,
      fun k hk => by simpa [setStage] using hk, by simp⟩
  | cons e rest ih =>
    intro s h
    rw [scriptsApprove] at h
    rcases hpe : parseEnvName e with - | env
    · rw [hpe] at h; simp at h
    rcases env with _ | _ | _
    · -- DEV
      have hkey : resultKey e = e := by simp [resultKey, hpe]
      simp only [hpe] at h
      obtain ⟨hatt, hrec1, -⟩ := deployCall_attempted .DEV
        (orElseStr s.base.result.artifact_version "latest")
        ("pipeline-deploy-" ++ e) [] (cenv.deployOutcome s.deployCalls) rfl
      have hstep : ∃ S v, deployLoop ca cenv s (e :: rest) = deployLoop ca cenv S rest ∧
          S.stagingSeen = s.stagingSeen ∧ S.prodSeen = s.prodSeen ∧
          S.deployCalls = s.deployCalls + 1 ∧ S.records.length = s.records.length + 1 ∧
          S.base.result.deployment_results =
            assocSet s.base.result.deployment_results (resultKey e) v := by
        rw [deployLoop, hpe]
        dsimp only [setStage]
        rw [hatt]
        simp only [if_true]
        exact ⟨_, _, rfl, rfl, rfl, rfl, by simp [hrec1], by rw [hkey]⟩
      obtain ⟨S, v, hstep, hss, hsp, hsc, hsr, hdr⟩ := hstep
      rw [hstep]
      obtain ⟨s2, heq, h1, h2, h3, h4, h5, h6⟩ := ih S (by rw [hss, hsp]; exact h)
      rw [hdr] at h5
      refine ⟨s2, heq, h1, h2, by simp only [List.length_cons]; omega,
        by simp only [List.length_cons]; omega, ?_, ?_⟩
      · exact fun k hk => h5 k (assocGet_isSome_assocSet _ _ _ _ hk)
      · intro e2 he2
        rcases List.mem_cons.mp he2 with rfl | he2
        · exact h5 (resultKey e2) (by rw [assocGet_assocSet_self]; rfl)
        · exact h6 e2 he2
    · -- STAGING
      have hkey : resultKey e = "staging" := by simp [resultKey, hpe]
      simp only [hpe] at h
      by_cases hra : ca.require_approvals = true
      · rw [if_pos hra, Bool.and_eq_true] at h
        obtain ⟨happr, hrest⟩ := h
        obtain ⟨s2g, req, hgate, hres, htrg, hcrg, hcog, hadg, hddg, hact, hag, hst, hap⟩ :=
          runRequireApproval_approved _ "cicd" "deployment_staging" _ _
            (cenv.stagingScript s.stagingSeen) happr
        have hatt := deployCall_attempted .STAGING
          (orElseStr s.base.result.artifact_version "latest") "pipeline-deploy-staging"
          ["user"] (cenv.deployOutcome s.deployCalls) rfl
        have hstep : ∃ S v, deployLoop ca cenv s (e :: rest) = deployLoop ca cenv S rest ∧
            S.stagingSeen = s.stagingSeen + 1 ∧ S.prodSeen = s.prodSeen ∧
            S.deployCalls = s.deployCalls + 1 ∧ S.records.length = s.records.length + 1 ∧
            S.base.result.deployment_results =
              assocSet s.base.result.deployment_results (resultKey e) v := by
          rw [deployLoop, hpe]
          dsimp only [setStage]
          simp only [hra, if_true]
          rw [hgate]
          simp only [hres, List.getLast?_concat]
          rw [hap]
          rw [show orElseStr (some "user") "user" = "user" from rfl]
          rw [hatt.1]
          simp only [if_true]
          exact ⟨_, _, rfl, rfl, rfl, rfl, by simp [hatt.2.1], by rw [hkey]⟩
        obtain ⟨S, v, hstep, hss, hsp, hsc, hsr, hdr⟩ := hstep
        rw [hstep]
        obtain ⟨s2, heq, h1, h2, h3, h4, h5, h6⟩ := ih S (by rw [hss, hsp]; exact hrest)
        rw [hdr] at h5
        refine ⟨s2, heq, h1, h2, by simp only [List.length_cons]; omega,
          by simp only [List.length_cons]; omega, ?_, ?_⟩
        · exact fun k hk => h5 k (assocGet_isSome_assocSet _ _ _ _ hk)
        · intro e2 he2
          rcases List.mem_cons.mp he2 with rfl | he2
          · exact h5 (resultKey e2) (by rw [assocGet_assocSet_self]; rfl)
          · exact h6 e2 he2
      · have hra2 : ca.require_approvals = false := by
          revert hra; cases ca.require_approvals <;> simp
        simp only [hra2, Bool.false_eq_true, if_false] at h
        have hatt := deployCall_attempted .STAGING
          (orElseStr s.base.result.artifact_version "latest") "pipeline-deploy-staging"
          ["auto-approved"] (cenv.deployOutcome s.deployCalls) rfl
        have hstep : ∃ S v, deployLoop ca cenv s (e :: rest) = deployLoop ca cenv S rest ∧
            S.stagingSeen = s.stagingSeen ∧ S.prodSeen = s.prodSeen ∧
            S.deployCalls = s.deployCalls + 1 ∧ S.records.length = s.records.length + 1 ∧
            S.base.result.deployment_results =
              assocSet s.base.result.deployment_results (resultKey e) v := by
          rw [deployLoop, hpe]
          dsimp only [setStage]
          simp only [hra2, Bool.false_eq_true, if_false]
          rw [hatt.1]
          simp only [if_true, Nat.add_zero]
          exact ⟨_, _, rfl, rfl, rfl, rfl, by simp [hatt.2.1], by rw [hkey]⟩
        obtain ⟨S, v, hstep, hss, hsp, hsc, hsr, hdr⟩ := hstep
        rw [hstep]
        obtain ⟨s2, heq, h1, h2, h3, h4, h5, h6⟩ := ih S (by rw [hss, hsp]; exact h)
        rw [hdr] at h5
        refine ⟨s2, heq, h1, h2, by simp only [List.length_cons]; omega,
          by simp only [List.length_cons]; omega, ?_, ?_⟩
        · exact fun k hk => h5 k (assocGet_isSome_assocSet _ _ _ _ hk)
        · intro e2 he2
          rcases List.mem_cons.mp he2 with rfl | he2
          · exact h5 (resultKey e2) (by rw [assocGet_assocSet_self]; rfl)
          · exact h6 e2 he2
    · -- PROD
      have hkey : resultKey e = "prod" := by simp [resultKey, hpe]
      simp only [hpe] at h
      by_cases hra : ca.require_approvals = true
      · rw [if_pos hra, Bool.and_eq_true, Bool.and_eq_true] at h
        obtain ⟨⟨happr, hacc⟩, hrest⟩ := h
        obtain ⟨s2g, r1, r2, hgate, hres, htrg, hap1, u, hap2, hne⟩ :=
          runDualApproval_accepts _ "cicd" "deployment_prod" _ _ none
            (cenv.prodScript s.prodSeen) happr hacc
        have hxne : orElseStr (some u) "user2" ≠ "user" := by
          by_cases hu0 : u = "" <;> simp [orElseStr, hu0, hne]
        have hval := deployValidationError_prod_pair (orElseStr (some u) "user2") hxne
        have hatt := deployCall_attempted .PROD
          (orElseStr s.base.result.artifact_version "latest") "pipeline-deploy-prod"
          ["user", orElseStr (some u) "user2"] (cenv.deployOutcome s.deployCalls) hval
        have hstep : ∃ S v, deployLoop ca cenv s (e :: rest) = deployLoop ca cenv S rest ∧
            S.stagingSeen = s.stagingSeen ∧ S.prodSeen = s.prodSeen + 1 ∧
            S.deployCalls = s.deployCalls + 1 ∧ S.records.length = s.records.length + 1 ∧
            S.base.result.deployment_results =
              assocSet s.base.result.deployment_results (resultKey e) v := by
          rw [deployLoop, hpe]
          dsimp only [setStage]
          simp only [hra, if_true]
          rw [hgate]
          simp only [hres]
          rw [hap1, hap2]
          rw [show orElseStr (some "user") "user1" = "user" from rfl]
          rw [hatt.1]
          simp only [if_true]
          exact ⟨_, _, rfl, rfl, rfl, rfl, by simp [hatt.2.1], by rw [hkey]⟩
        obtain ⟨S, v, hstep, hss, hsp, hsc, hsr, hdr⟩ := hstep
        rw [hstep]
        obtain ⟨s2, heq, h1, h2, h3, h4, h5, h6⟩ := ih S (by rw [hss, hsp]; exact hrest)
        rw [hdr] at h5
        refine ⟨s2, heq, h1, h2, by simp only [List.length_cons]; omega,
          by simp only [List.length_cons]; omega, ?_, ?_⟩
        · exact fun k hk => h5 k (assocGet_isSome_assocSet _ _ _ _ hk)
        · intro e2 he2
          rcases List.mem_cons.mp he2 with rfl | he2
          · exact h5 (resultKey e2) (by rw [assocGet_assocSet_self]; rfl)
          · exact h6 e2 he2
      · have hra2 : ca.require_approvals = false := by
          revert hra; cases ca.require_approvals <;> simp
        simp only [hra2, Bool.false_eq_true, if_false] at h
        have hatt := deployCall_attempted .PROD
          (orElseStr s.base.result.artifact_version "latest") "pipeline-deploy-prod"
          ["auto-approved-1", "auto-approved-2"] (cenv.deployOutcome s.deployCalls)
          (by decide)
        have hstep : ∃ S v, deployLoop ca cenv s (e :: rest) = deployLoop ca cenv S rest ∧
            S.stagingSeen = s.stagingSeen ∧ S.prodSeen = s.prodSeen ∧
            S.deployCalls = s.deployCalls + 1 ∧ S.records.length = s.records.length + 1 ∧
            S.base.result.deployment_results =
              assocSet s.base.result.deployment_results (resultKey e) v := by
          rw [deployLoop, hpe]
          dsimp only [setStage]
          simp only [hra2, Bool.false_eq_true, if_false]
          rw [hatt.1]
          simp only [if_true]
          exact ⟨_, _, rfl, rfl, rfl, rfl, by simp [hatt.2.1], by rw [hkey]⟩
        obtain ⟨S, v, hstep, hss, hsp, hsc, hsr, hdr⟩ := hstep
        rw [hstep]
        obtain ⟨s2, heq, h1, h2, h3, h4, h5, h6⟩ := ih S (by rw [hss, hsp]; exact h)
        rw [hdr] at h5
        refine ⟨s2, heq, h1, h2, by simp only [List.length_cons]; omega,
          by simp only [List.length_cons]; omega, ?_, ?_⟩
        · exact fun k hk => h5 k (assocGet_isSome_assocSet _ _ _ _ hk)
        · intro e2 he2
          rcases List.mem_cons.mp he2 with rfl | he2
          · exact h5 (resultKey e2) (by rw [assocGet_assocSet_self]; rfl)
          · exact h6 e2 he2

/-- Arguments of the C5 witness run: all three environments, approvals on. -/
def c5args : CICDArgs := { deploy_to := ["dev", "staging", "prod"], require_approvals := true }

/-- Environment of the C5 witness run: the first deploy-executor call (the
dev deployment) fails, later ones succeed; all approvals are granted, the
prod second approval typed as "bob". -/
def c5cenv : CICDEnv :=
  { deployOutcome := fun i =>
      if i = 0 then .ok { success := false, error := some "boom" } else .ok {},
    stagingScript := fun _ => { approved := true },
    prodScript := fun _ => ({ approved := true }, [({ approved := true }, "bob")]) }

/-- C5 witness: the concrete run with a failing dev deployment still
attempts all three environments and completes. -/
theorem C5_deploy_failure_isolated_witness :
    ∃ s2, deployLoop c5args c5cenv { base := c4base } ["dev", "staging", "prod"] =
        .finished s2 ∧
      s2.base.result.stage = .COMPLETE ∧ s2.base.result.success = true ∧
      s2.deployCalls = ({ base := c4base } : CICDState).deployCalls + (["dev", "staging", "prod"] : List String).length ∧
      s2.records.length = ({ base := c4base } : CICDState).records.length + (["dev", "staging", "prod"] : List String).length ∧
      (∀ k, (assocGet ({ base := c4base } : CICDState).base.result.deployment_results k).isSome = true →
        (assocGet s2.base.result.deployment_results k).isSome = true) ∧
      (∀ e ∈ (["dev", "staging", "prod"] : List String),
        (assocGet s2.base.result.deployment_results (resultKey e)).isSome = true) :=
  C5_deploy_failure_isolated c5args c5cenv ["dev", "staging", "prod"] { base := c4base }
    (by decide)

/-! ## C1 — checkpoint rejection halts the run -/

/-- The second-approval loop hits a rejected attempt: every earlier
attempt is an approved retry with a same-as-first or unauthorized
identity, and some attempt answers no. -/
def scriptRejects (fa : Option String) (authorized : Option (List String)) :
    List (Decision × String) → Bool
  | [] => false
  | (d, u) :: rest =>
    if !d.approved then true
    else if some u = fa || !authOkay authorized u then scriptRejects fa authorized rest
    else false

theorem dualSecondLoop_rejected (agent action description : String)
    (details2 : List (String × String)) (authorized : Option (List String))
    (fa : Option String) (r1 : ApprovalRequest) :
    ∀ (attempts : List (Decision × String)) (s : RunState),
      scriptRejects fa authorized attempts = true →
      ∃ s2 c,
        dualSecondLoop agent action description details2 authorized fa r1 s attempts =
          .rejectedGate s2 ("Second approval rejected: " ++ c) ∧
        s2.result = s.result ∧ s2.trace = s.trace := by
  intro attempts
  induction attempts with
  | nil => intro s h; simp [scriptRejects] at h
  | cons hd tl ih =>
    obtain ⟨d, uname⟩ := hd
    intro s h
    rw [scriptRejects] at h
    rw [dualSecondLoop]
    by_cases hd2 : d.approved = true
    · simp only [hd2, Bool.not_true, Bool.false_eq_true, if_false] at h ⊢
      by_cases hu : some uname = fa
      · rw [if_pos hu]
        obtain ⟨s2, c, heq, hres, htr⟩ := ih _ (by simpa [hu] using h)
        exact ⟨s2, c, heq, by simpa using hres, by simpa using htr⟩
      · rw [if_neg hu]
        by_cases ha : authOkay authorized uname = true
        · exfalso
          simp [hu, ha] at h
        · have ha2 : authOkay authorized uname = false := by
            revert ha; cases authOkay authorized uname <;> simp
          have h2 : scriptRejects fa authorized tl = true := by
            simpa [hu, ha2] using h
          simp only [ha2, Bool.not_false, if_true]
          obtain ⟨s2, c, heq, hres, htr⟩ := ih _ h2
          exact ⟨s2, c, heq, by simpa using hres, by simpa using htr⟩
    · have hd3 : d.approved = false := by
        revert hd2; cases d.approved <;> simp
      simp only [hd3, Bool.not_false, if_true, requestApproval, reject, updateStatus]
      rw [storeGet_storeSet_self]
      exact ⟨_, d.comments, rfl, rfl, rfl⟩

theorem runDualApproval_rejected_any (s : RunState) (agent action description : String)
    (details : List (String × String)) (authorized : Option (List String))
    (script : Decision × List (Decision × String))
    (hrej : script.1.approved = false ∨
      (script.1.approved = true ∧
        scriptRejects (some "user") authorized script.2 = true)) :
    ∃ s2 msg, runDualApproval s agent action description details authorized script =
        .rejectedGate s2 msg ∧
      s2.result = s.result ∧ s2.trace = s.trace := by
  rw [runDualApproval]
  rcases hrej with h1 | ⟨h1, h2⟩
  · simp only [h1, Bool.not_false, if_true, requestApproval, reject, updateStatus]
    rw [storeGet_storeSet_self]
    exact ⟨_, _, rfl, rfl, rfl⟩
  · simp only [h1, Bool.not_true, Bool.false_eq_true, if_false,
      requestApproval, approve, updateStatus]
    rw [storeGet_storeSet_self]
    simp only
    obtain ⟨s2, c, heq, hres, htr⟩ :=
      dualSecondLoop_rejected agent action description _ authorized (some "user") _
        script.2 _ h2
    rw [heq]
    exact ⟨s2, _, rfl, by simpa using hres, by simpa using htr⟩

/-! ## C1 — approval rejection halts the run -/

/-- C1 (amended): with require_approvals set, a rejected approval checkpoint
halts the run at once.  A rejected design, dev or test approval sets the
terminal status FAILED with the rejection surfaced in the error and no
subsequent stage result recorded; in the CI/CD deployment loop a rejected
staging or prod deployment approval sets the terminal status FAILED with no
further deploy attempted; but a rejected security-warning review sets the
terminal status BLOCKED, not FAILED (pipeline.py line 428), refuting the
claim's "any approval checkpoint ... FAILED" for that checkpoint. -/
theorem C1_reject_halts :
    (∀ (a : RunArgs) (env : RunEnv) (st0 : Store) (cnt0 : Nat) (dr : AgentResult),
      a.task_type = "feature" → a.skip_design = false → a.require_approvals = true →
      env.design = .ok dr → dr.success = true → env.designDecision.approved = false →
      onFinished (runPipeline a env st0 cnt0) (fun s =>
        s.result.stage = .FAILED ∧
        s.result.error = some ("Design rejected: " ++
          ("Approval rejected: " ++ env.designDecision.comments)) ∧
        s.result.dev_result = none ∧ s.result.test_result = none ∧
        s.result.cyber_result = none ∧
        s.trace = [.DESIGN_APPROVAL, .FAILED])) ∧
    (∀ (a : RunArgs) (env : RunEnv) (st0 : Store) (cnt0 : Nat) (s1 : RunState)
        (dv : AgentResult),
      a.require_approvals = true →
      designPhase a env (initState st0 cnt0) = .next s1 →
      env.dev = .ok dv → dv.success = true → env.devDecision.approved = false →
      onFinished (runPipeline a env st0 cnt0) (fun s =>
        s.result.stage = .FAILED ∧
        s.result.error = some ("Dev approval rejected: " ++
          ("Approval rejected: " ++ env.devDecision.comments)) ∧
        s.result.test_result = none ∧ s.result.cyber_result = none ∧
        s.trace = s1.trace ++ [.DEV, .DEV_APPROVAL, .FAILED])) ∧
    (∀ (a : RunArgs) (env : RunEnv) (st0 : Store) (cnt0 : Nat) (s1 s2m : RunState)
        (tv : AgentResult),
      a.require_approvals = true →
      designPhase a env (initState st0 cnt0) = .next s1 →
      devPhase a env s1 = .next s2m →
      env.test = .ok tv → tv.success = true → env.testDecision.approved = false →
      onFinished (runPipeline a env st0 cnt0) (fun s =>
        s.result.stage = .FAILED ∧
        s.result.error = some ("Test approval rejected: " ++
          ("Approval rejected: " ++ env.testDecision.comments)) ∧
        s.result.cyber_result = none ∧
        s.trace = s2m.trace ++ [.TEST, .TEST_APPROVAL, .FAILED])) ∧
    (∀ (a : RunArgs) (env : RunEnv) (st0 : Store) (cnt0 : Nat)
        (s1 s2m s3 : RunState) (cv : AgentResult),
      a.require_approvals = true →
      designPhase a env (initState st0 cnt0) = .next s1 →
      devPhase a env s1 = .next s2m →
      testPhase a env s2m = .next s3 →
      env.cyber = .ok cv → cv.success = true →
      (parse_decision cv.content).1 = "WARN" →
      env.warnDecision.approved = false →
      onFinished (runPipeline a env st0 cnt0) (fun s =>
        s.result.stage = .BLOCKED ∧ s.result.stage ≠ .FAILED ∧
        s.result.error = some ("Security review rejected: " ++
          ("Approval rejected: " ++ env.warnDecision.comments)) ∧
        s.trace = s3.trace ++ [.CYBER, .CYBER_APPROVAL, .BLOCKED])) ∧
    (∀ (ca : CICDArgs) (cenv : CICDEnv) (s : CICDState) (e : String)
        (rest : List String),
      parseEnvName e = some .STAGING → ca.require_approvals = true →
      (cenv.stagingScript s.stagingSeen).approved = false →
      onCICDDone (deployLoop ca cenv s (e :: rest)) (fun s2 =>
        s2.base.result.stage = .FAILED ∧
        s2.base.result.error = some ("Staging deployment rejected: " ++
          ("Approval rejected: " ++ (cenv.stagingScript s.stagingSeen).comments)) ∧
        s2.records = s.records ∧
        s2.deployCalls = s.deployCalls ∧
        s2.base.result.deployment_results = s.base.result.deployment_results ∧
        s2.base.trace = s.base.trace ++ [.DEPLOY_STAGING_APPROVAL, .FAILED])) ∧
    (∀ (ca : CICDArgs) (cenv : CICDEnv) (s : CICDState) (e : String)
        (rest : List String),
      parseEnvName e = some .PROD → ca.require_approvals = true →
      ((cenv.prodScript s.prodSeen).1.approved = false ∨
        ((cenv.prodScript s.prodSeen).1.approved = true ∧
          scriptRejects (some "user") none (cenv.prodScript s.prodSeen).2 = true)) →
      onCICDDone (deployLoop ca cenv s (e :: rest)) (fun s2 =>
        s2.base.result.stage = .FAILED ∧
        (∃ m, s2.base.result.error = some ("Production deployment rejected: " ++ m)) ∧
        s2.records = s.records ∧
        s2.deployCalls = s.deployCalls ∧
        s2.base.result.deployment_results = s.base.result.deployment_results ∧
        s2.base.trace = s.base.trace ++ [.DEPLOY_PROD_APPROVAL, .FAILED])) := by
  refine ⟨?_, ?_, ?_, ?_, ?_, ?_⟩
  · intro a env st0 cnt0 dr hft hsd hra hdes hdrs hrej
    obtain ⟨s2, heq, hres, htr, hcr, hco, had, hdd⟩ :=
      runRequireApproval_rejected _ "dev" "design_approval" _ _ env.designDecision hrej
    rw [runPipeline_eq]
    have hd : designPhase a env (initState st0 cnt0) =
        .finished (failRun s2 ("Design rejected: " ++
          ("Approval rejected: " ++ env.designDecision.comments))) := by
      simp only [designPhase, hft, hsd, hdes, hdrs, hra, Bool.not_false, Bool.and_self,
        if_true]
      rw [heq]
      simp
    rw [hd]
    simp only [onFinished]
    refine ⟨by simp [failRun, setStage], by simp [failRun, setStage], ?_, ?_, ?_, ?_⟩ <;>
      simp [failRun, setStage, hres, htr, initState]
  · intro a env st0 cnt0 s1 dv hra hdp hdev hdvs hrej
    obtain ⟨s2, heq, hres, htr, hcr, hco, had, hdd⟩ :=
      runRequireApproval_rejected _ "dev" "code_changes" _ _ env.devDecision hrej
    rw [runPipeline_eq, hdp]
    have hd : devPhase a env s1 = .finished (failRun s2 ("Dev approval rejected: " ++
        ("Approval rejected: " ++ env.devDecision.comments))) := by
      simp only [devPhase, hdev, hdvs, hra, if_true]
      rw [heq]
    simp only [restOf, bindPhase, hd, onFinished]
    obtain ⟨sd, hpsd, _, _, hdevd, htstd, hcybd, _, _⟩ :=
      designPhase_footprint a env (initState st0 cnt0)
    rw [hdp] at hpsd
    simp only [phaseState, Option.some.injEq] at hpsd
    subst hpsd
    refine ⟨by simp [failRun, setStage], by simp [failRun, setStage], ?_, ?_, ?_⟩ <;>
      simp [failRun, setStage, hres, htr, htstd, hcybd, initState]
  · intro a env st0 cnt0 s1 s2m tv hra hdp hvp htest htvs hrej
    obtain ⟨s2, heq, hres, htr, hcr, hco, had, hdd⟩ :=
      runRequireApproval_rejected _ "test" "test_generation" _ _ env.testDecision hrej
    rw [runPipeline_eq, hdp]
    have hd : testPhase a env s2m = .finished (failRun s2 ("Test approval rejected: " ++
        ("Approval rejected: " ++ env.testDecision.comments))) := by
      simp only [testPhase, htest, htvs, hra, if_true]
      rw [heq]
    simp only [restOf, bindPhase, hvp, hd, onFinished]
    obtain ⟨sd, hpsd, _, _, hdevd, htstd, hcybd, _, _⟩ :=
      designPhase_footprint a env (initState st0 cnt0)
    rw [hdp] at hpsd
    simp only [phaseState, Option.some.injEq] at hpsd
    subst hpsd
    obtain ⟨sv, hpsv, _, _, _, _, hcybv, _, _⟩ := devPhase_footprint a env s1
    rw [hvp] at hpsv
    simp only [phaseState, Option.some.injEq] at hpsv
    subst hpsv
    refine ⟨by simp [failRun, setStage], by simp [failRun, setStage], ?_, ?_⟩ <;>
      simp [failRun, setStage, hres, htr, hcybv, hcybd, initState]
  · intro a env st0 cnt0 s1 s2m s3 cv hra hdp hvp htp hcy hcvs hw hrej
    obtain ⟨s2, heq, hres, htr, hcr, hco, had, hdd⟩ :=
      runRequireApproval_rejected _ "cyber" "security_warning" _ _ env.warnDecision hrej
    rw [runPipeline_eq, hdp]
    simp only [restOf, bindPhase, hvp, htp, cyberPhase, hcy, hcvs, if_true, hw]
    rw [if_neg (by decide : ¬ ("WARN" : String) = "BLOCK")]
    simp only [hra, if_true]
    rw [heq]
    simp only [bindPhase, onFinished]
    refine ⟨by simp [setStage], by simp [setStage], by simp [setStage], ?_⟩
    simp [setStage, htr]
  · intro ca cenv s e rest hpe hra hrej
    obtain ⟨b2, heq, hres, htr, hcr, hco, had, hdd⟩ :=
      runRequireApproval_rejected _ "cicd" "deployment_staging" _ _ _ hrej
    simp only [deployLoop, hpe]
    simp only [hra, if_true]
    rw [heq]
    simp only [onCICDDone]
    refine ⟨by simp [failRun, setStage], by simp [failRun, setStage],
      trivial, trivial, ?_, ?_⟩ <;> simp [failRun, setStage, hres, htr]
  · intro ca cenv s e rest hpe hra hrej
    obtain ⟨b2, msg, heq, hres, htr⟩ :=
      runDualApproval_rejected_any _ "cicd" "deployment_prod" _ _ none _ hrej
    simp only [deployLoop, hpe]
    simp only [hra, if_true]
    rw [heq]
    simp only [onCICDDone]
    refine ⟨by simp [failRun, setStage], ⟨msg, by simp [failRun, setStage]⟩,
      trivial, trivial, ?_, ?_⟩ <;> simp [failRun, setStage, hres, htr]

/-- Scripted environment of a bugfix run that reaches the security review
with a WARN decision and rejects the security-warning approval: every
collaborator succeeds, the dev and test checkpoints are approved, and the
warning review is declined. -/
def warnRejectEnv : RunEnv :=
  { design := .ok { content := "d" }, dev := .ok { content := "impl" },
    test := .ok { content := "tests" }, cyber := .ok { content := "Decision: WARN" },
    designDecision := { approved := true }, devDecision := { approved := true },
    testDecision := { approved := true },
    warnDecision := { approved := false, comments := "too risky" } }

/-- C1 counterexample to the claim as stated: in this concrete run the
security-warning approval checkpoint is rejected (the consumed prompt
records it), yet the run's terminal status is BLOCKED, not FAILED. -/
theorem C1_reject_halts_counterexample :
    onFinished (runPipeline { task := "t", task_type := "bugfix", require_approvals := true, skip_design := false } warnRejectEnv [] 0) (fun s =>
      ("security_warning", false) ∈ s.consumed ∧
      s.result.stage = .BLOCKED ∧
      s.result.stage ≠ .FAILED ∧
      s.result.error =
        some "Security review rejected: Approval rejected: too risky") :=
  ⟨by decide, rfl, by decide, rfl⟩

end DevAI
